import Mathlib

/-!
# Shallow embedding of the stack-based bytecode VM (`src/vm/*.rs`)

This file embeds the data model and the operations of the virtual machine
(`types.rs`, `stack.rs`, `call_frame.rs`, `heap.rs`, `instruction.rs`,
`runtime.rs`, `jit.rs`) as executable Lean definitions, and proves or
refutes the frozen claims about them.

Modelling conventions:
* `i64` is `Int`; where the Rust code can wrap (`as usize` casts) the cast
  is modelled with an explicit `% 2^64`.  `usize` is `Nat`.
* `f64` payloads are modelled by `FloatVal`: an exact rational together
  with the IEEE special values `posInf`, `negInf` and `nan`.  The
  properties proved below depend only on the zero test (`b == 0.0`), on
  IEEE equality/ordering of the special values (`nan` compares unequal to
  everything, including itself) and on the variant tags of results, never
  on rounding, so the exact-rational model is adequate for them.
* Rust `HashMap`s are modelled as association lists; lookup order is the
  only observable used by the embedded code.
* `&mut` state is threaded explicitly.  Functions whose error path leaves
  earlier mutations visible to the caller (`execute_set_field`, the heap
  allocators) return the final state alongside the `Except` result; the
  remaining helpers only make their state visible on success, which is the
  only path the corresponding claims observe.
-/

/-- IEEE-754 binary64 model: exact rationals plus the special values.
`finite q` stands for every finite double (including both zeros, which
compare equal and are collapsed to the rational 0). -/
inductive FloatVal where
  | finite (q : ℚ)
  | posInf
  | negInf
  | nan
deriving DecidableEq, Repr

namespace FloatVal

/-- IEEE `==` on doubles: `nan` is equal to nothing (itself included). -/
def feq : FloatVal → FloatVal → Bool
  | finite a, finite b => a == b
  | posInf, posInf => true
  | negInf, negInf => true
  | _, _ => false

/-- IEEE `<` on doubles: comparisons involving `nan` are false. -/
def flt : FloatVal → FloatVal → Bool
  | finite a, finite b => a < b
  | finite _, posInf => true
  | negInf, finite _ => true
  | negInf, posInf => true
  | _, _ => false

/-- IEEE `<=` on doubles. -/
def fle (a b : FloatVal) : Bool := flt a b || feq a b

/-- The literal `0.0` used by the zero tests of `execute_div`. -/
def zero : FloatVal := finite 0

/-- `a + b` on doubles (exact-rational model; specials propagate). -/
def fadd : FloatVal → FloatVal → FloatVal
  | finite a, finite b => finite (a + b)
  | nan, _ => nan
  | _, nan => nan
  | posInf, negInf => nan
  | negInf, posInf => nan
  | posInf, _ => posInf
  | _, posInf => posInf
  | negInf, _ => negInf
  | _, negInf => negInf

/-- `a - b` on doubles (exact-rational model; specials propagate). -/
def fsub : FloatVal → FloatVal → FloatVal
  | finite a, finite b => finite (a - b)
  | nan, _ => nan
  | _, nan => nan
  | posInf, posInf => nan
  | negInf, negInf => nan
  | posInf, _ => posInf
  | negInf, _ => negInf
  | finite _, posInf => negInf
  | finite _, negInf => posInf

/-- `a * b` on doubles (exact-rational model; sign-correct specials are
irrelevant to the claims, which never inspect the payload of a product). -/
def fmul : FloatVal → FloatVal → FloatVal
  | finite a, finite b => finite (a * b)
  | _, _ => nan

/-- `a / b` on doubles.  The VM only divides after ruling out a zero
divisor, and no claim inspects the payload of a quotient. -/
def fdiv : FloatVal → FloatVal → FloatVal
  | finite a, finite b => if b = 0 then nan else finite (a / b)
  | _, _ => nan

end FloatVal

/-- Rust `i64 as f64` (exact for the integers the claims touch). -/
def intToFloat (i : Int) : FloatVal := .finite (i : ℚ)

/-- Rust `i64 as usize`: two's-complement reinterpretation, i.e. the
value modulo `2^64`. -/
def i64ToUsize (i : Int) : Nat := (i % (2 ^ 64 : Int)).toNat

/-- `Value` from `types.rs`: the tagged variant of primitive and
heap-managed values.  `gcString`/`gcObject` model `GcPtr<String>` /
`GcPtr<Object>` as the object id together with the pointee (an `Object`
is its `HashMap<String, Value>` field table, as an association list). -/
inductive Value where
  | integer (i : Int)
  | float (f : FloatVal)
  | boolean (b : Bool)
  | string (s : String)
  | gcString (objectId : Nat) (s : String)
  | gcObject (objectId : Nat) (fields : List (String × Value))
  | null

namespace Value

/-- `Value::type_name` from `types.rs`. -/
def type_name : Value → String
  | integer _ => "integer"
  | float _ => "float"
  | boolean _ => "boolean"
  | string _ => "string"
  | gcString _ _ => "gc_string"
  | gcObject _ _ => "gc_object"
  | null => "null"

/-- `Value::is_truthy` from `types.rs`.  `f != 0.0` makes `nan` truthy. -/
def is_truthy : Value → Bool
  | boolean b => b
  | integer i => i != 0
  | float f => !(FloatVal.feq f FloatVal.zero)
  | string s => !s.isEmpty
  | gcString _ s => !s.isEmpty
  | gcObject _ _ => true
  | null => false

end Value

mutual

/-- The derived `PartialEq` on `Value`: same tag and equal payload.
`Float` payloads use IEEE equality; `GcPtr` compares the pointee (Rust
`Arc<T>: PartialEq` compares values) and then the object id; an `Object`
compares as its `HashMap`: equal length and left-to-right inclusion. -/
def valueEq : Value → Value → Bool
  | .integer a, .integer b => a == b
  | .float a, .float b => FloatVal.feq a b
  | .boolean a, .boolean b => a == b
  | .string a, .string b => a == b
  | .gcString id1 s1, .gcString id2 s2 => s1 == s2 && id1 == id2
  | .gcObject id1 f1, .gcObject id2 f2 =>
      (f1.length == f2.length && fieldsIncl f1 f2) && id1 == id2
  | .null, .null => true
  | _, _ => false

/-- `HashMap` equality, left side: every field of `f1` is present in `f2`
with an equal value. -/
def fieldsIncl : List (String × Value) → List (String × Value) → Bool
  | [], _ => true
  | (k, v) :: rest, f2 =>
      (match List.lookup k f2 with
       | some w => valueEq v w
       | none => false) && fieldsIncl rest f2

end

/-- `StackError` from `stack.rs`. -/
inductive StackError where
  | underflow
  | overflow
deriving DecidableEq, Repr

/-- `CallFrameError` from `call_frame.rs`. -/
inductive CallFrameError where
  | localIndexOutOfBounds (requested : Nat) (maxIndex : Nat)
  | stackUnderflow
  | emptyCallStack
deriving DecidableEq, Repr

/-- `ExecutionError` from `instruction.rs`. -/
inductive ExecutionError where
  | stackError (e : StackError)
  | callFrameError (e : CallFrameError)
  | typeError (msg : String)
  | divisionByZero
  | invalidJumpAddress (addr : Int)
  | unknownOpcode (code : Nat)
  | insufficientOperands
  | invalidOperand (msg : String)
deriving DecidableEq, Repr

/-- `VmError` from `runtime.rs`. -/
inductive VmError where
  | executionError (e : ExecutionError)
  | programCounterOutOfBounds (pc : Nat) (programLength : Nat)
  | invalidProgramState (msg : String)
  | noProgram
deriving DecidableEq, Repr

/-- `OperandStack` from `stack.rs`: the `Vec` of values (top of stack at
the head, mirroring the `Vec`'s pushing end) and the optional per-instance
ceiling.  `MAX_STACK_SIZE = 1_000_000` is the absolute ceiling. -/
structure OperandStack where
  values : List Value
  maxSize : Option Nat

namespace OperandStack

def MAX_STACK_SIZE : Nat := 1000000

/-- `OperandStack::new`. -/
def new : OperandStack := { values := [], maxSize := none }

/-- `OperandStack::with_capacity`: the user ceiling clamped to the
absolute maximum. -/
def with_capacity (maxSize : Nat) : OperandStack :=
  { values := [], maxSize := some (min maxSize MAX_STACK_SIZE) }

/-- The overflow test shared by `push` (where it panics) and `try_push`
(where it returns `Overflow`). -/
def overflows (s : OperandStack) : Bool :=
  match s.maxSize with
  | none => s.values.length ≥ MAX_STACK_SIZE
  | some max => s.values.length ≥ max

/-- `OperandStack::try_push`. -/
def try_push (s : OperandStack) (v : Value) : Except StackError OperandStack :=
  if s.overflows then .error .overflow
  else .ok { s with values := v :: s.values }

/-- `OperandStack::push`.  The Rust function panics on overflow and
otherwise appends; the dispatcher only ever calls it, so the embedded
instruction semantics below use this total append (the claims settled in
this file never drive a stack anywhere near the `10^6` ceiling). -/
def push (s : OperandStack) (v : Value) : OperandStack :=
  { s with values := v :: s.values }

/-- `OperandStack::pop`. -/
def pop (s : OperandStack) : Except StackError (Value × OperandStack) :=
  match s.values with
  | [] => .error .underflow
  | v :: rest => .ok (v, { s with values := rest })

/-- `OperandStack::peek`. -/
def peek (s : OperandStack) : Except StackError Value :=
  match s.values with
  | [] => .error .underflow
  | v :: _ => .ok v

/-- `OperandStack::size`. -/
def size (s : OperandStack) : Nat := s.values.length

/-- `OperandStack::clear`. -/
def clear (s : OperandStack) : OperandStack := { s with values := [] }

end OperandStack

/-- `CallFrame` from `call_frame.rs`. -/
structure CallFrame where
  functionIndex : Nat
  returnAddress : Nat
  stackBase : Nat
  programCounter : Nat
  locals : List Value
  functionName : Option String

namespace CallFrame

/-- `CallFrame::new_with_stack_base`. -/
def new_with_stack_base (functionIndex returnAddress localCount stackBase : Nat) :
    CallFrame :=
  { functionIndex := functionIndex
    returnAddress := returnAddress
    stackBase := stackBase
    programCounter := 0
    locals := List.replicate localCount .null
    functionName := none }

/-- `CallFrame::new`. -/
def new (functionIndex returnAddress localCount : Nat) : CallFrame :=
  new_with_stack_base functionIndex returnAddress localCount 0

/-- `CallFrame::local_count`. -/
def local_count (f : CallFrame) : Nat := f.locals.length

/-- `CallFrame::get_local`. -/
def get_local (f : CallFrame) (index : Nat) : Except CallFrameError Value :=
  if index ≥ f.locals.length then
    .error (.localIndexOutOfBounds index (f.locals.length - 1))
  else
    .ok (f.locals.getD index .null)

/-- `CallFrame::set_local`. -/
def set_local (f : CallFrame) (index : Nat) (value : Value) :
    Except CallFrameError CallFrame :=
  if index ≥ f.locals.length then
    .error (.localIndexOutOfBounds index (f.locals.length - 1))
  else
    .ok { f with locals := f.locals.set index value }

end CallFrame

/-- `CallStack` from `call_frame.rs`: innermost frame at the head. -/
structure CallStack where
  frames : List CallFrame
  maxDepth : Nat

namespace CallStack

def DEFAULT_MAX_DEPTH : Nat := 10000

/-- `CallStack::new`. -/
def new : CallStack := { frames := [], maxDepth := DEFAULT_MAX_DEPTH }

/-- `CallStack::with_max_depth`. -/
def with_max_depth (maxDepth : Nat) : CallStack :=
  { frames := [], maxDepth := maxDepth }

/-- `CallStack::push`: refuses to grow past `max_depth` (the error kind
reuses `StackUnderflow`, as the Rust comment concedes). -/
def push (s : CallStack) (frame : CallFrame) : Except CallFrameError CallStack :=
  if s.frames.length ≥ s.maxDepth then .error .stackUnderflow
  else .ok { s with frames := frame :: s.frames }

/-- `CallStack::push_unchecked`: no depth check at all. -/
def push_unchecked (s : CallStack) (frame : CallFrame) : CallStack :=
  { s with frames := frame :: s.frames }

/-- `CallStack::pop`. -/
def pop (s : CallStack) : Except CallFrameError (CallFrame × CallStack) :=
  match s.frames with
  | [] => .error .stackUnderflow
  | f :: rest => .ok (f, { s with frames := rest })

/-- `CallStack::current`. -/
def current (s : CallStack) : Except CallFrameError CallFrame :=
  match s.frames with
  | [] => .error .stackUnderflow
  | f :: _ => .ok f

/-- `CallStack::set_current`: writing back the innermost frame models the
`current_mut` borrow used by `execute_store`. -/
def set_current (s : CallStack) (f : CallFrame) : CallStack :=
  match s.frames with
  | [] => s
  | _ :: rest => { s with frames := f :: rest }

/-- `CallStack::depth`. -/
def depth (s : CallStack) : Nat := s.frames.length

/-- `CallStack::clear`. -/
def clear (s : CallStack) : CallStack := { s with frames := [] }

end CallStack

/-- `HeapError` from `heap.rs`. -/
inductive HeapError where
  | outOfMemory
  | allocationFailed (msg : String)
  | invalidReference
deriving DecidableEq, Repr

/-- `Object` from `heap.rs`: the field table and the `HashMap` capacity
that `allocate_object` reads for size accounting (`Object::new` starts
with an unallocated map, capacity 0). -/
structure HeapObject where
  fields : List (String × Value)
  capacity : Nat

namespace HeapObject

/-- `Object::new`. -/
def new : HeapObject := { fields := [], capacity := 0 }

end HeapObject

/-- `mem::size_of::<String>()` on the 64-bit reference platform. -/
def sizeOfStringStruct : Nat := 24

/-- `mem::size_of::<Object>()` on the 64-bit reference platform (a
`HashMap<String, Value>`). -/
def sizeOfObjectStruct : Nat := 48

/-- `mem::size_of::<(String, Value)>()` on the 64-bit reference
platform. -/
def sizeOfFieldEntry : Nat := 56

/-- `Heap` from `heap.rs`: allocation accounting state. -/
structure Heap where
  nextObjectId : Nat
  allocatedObjects : Nat
  totalAllocatedBytes : Nat
  maxHeapSize : Option Nat
  currentHeapSize : Nat
  youngGenerationCount : Nat
  oldGenerationCount : Nat
  allocationTracking : Bool
  statsTotalAllocations : Nat
  statsBytesAllocated : Nat
  statsStringAllocations : Nat
  statsObjectAllocations : Nat
deriving DecidableEq, Repr

namespace Heap

/-- `Heap::new`. -/
def new : Heap :=
  { nextObjectId := 1
    allocatedObjects := 0
    totalAllocatedBytes := 0
    maxHeapSize := none
    currentHeapSize := 0
    youngGenerationCount := 0
    oldGenerationCount := 0
    allocationTracking := false
    statsTotalAllocations := 0
    statsBytesAllocated := 0
    statsStringAllocations := 0
    statsObjectAllocations := 0 }

/-- `Heap::with_initial_size`. -/
def with_initial_size (maxSize : Nat) : Heap :=
  { new with maxHeapSize := some maxSize }

/-- The accounted size of a string allocation:
`value.len() + size_of::<String>()` (`len` is the UTF-8 byte length). -/
def stringAllocSize (s : String) : Nat := s.utf8ByteSize + sizeOfStringStruct

/-- The accounted size of an object allocation:
`size_of::<Object>() + capacity * size_of::<(String, Value)>()`. -/
def objectAllocSize (obj : HeapObject) : Nat :=
  sizeOfObjectStruct + obj.capacity * sizeOfFieldEntry

/-- The common tail of both allocators: id assignment and counter
updates, after the limit check has passed. -/
def recordAllocation (h : Heap) (size : Nat) (isString : Bool) : Nat × Heap :=
  (h.nextObjectId,
   { h with
     nextObjectId := h.nextObjectId + 1
     allocatedObjects := h.allocatedObjects + 1
     totalAllocatedBytes := h.totalAllocatedBytes + size
     currentHeapSize := h.currentHeapSize + size
     youngGenerationCount := h.youngGenerationCount + 1
     statsTotalAllocations :=
       h.statsTotalAllocations + (if h.allocationTracking then 1 else 0)
     statsBytesAllocated :=
       h.statsBytesAllocated + (if h.allocationTracking then size else 0)
     statsStringAllocations :=
       h.statsStringAllocations +
         (if h.allocationTracking && isString then 1 else 0)
     statsObjectAllocations :=
       h.statsObjectAllocations +
         (if h.allocationTracking && !isString then 1 else 0) })

/-- `Heap::allocate_string`: the `&mut self` receiver is returned
alongside the result, so the claim about failed allocations can observe
that the error path leaves every counter untouched. -/
def allocate_string (h : Heap) (value : String) :
    Except HeapError Nat × Heap :=
  let size := stringAllocSize value
  match h.maxHeapSize with
  | some maxSize =>
      if h.currentHeapSize + size > maxSize then (.error .outOfMemory, h)
      else
        let (objectId, h') := h.recordAllocation size true
        (.ok objectId, h')
  | none =>
      let (objectId, h') := h.recordAllocation size true
      (.ok objectId, h')

/-- `Heap::allocate_object` (returns the fresh object id; the pushed
`Value::GcObject` carries it together with the object's fields). -/
def allocate_object (h : Heap) (obj : HeapObject) :
    Except HeapError Nat × Heap :=
  let size := objectAllocSize obj
  match h.maxHeapSize with
  | some maxSize =>
      if h.currentHeapSize + size > maxSize then (.error .outOfMemory, h)
      else
        let (objectId, h') := h.recordAllocation size false
        (.ok objectId, h')
  | none =>
      let (objectId, h') := h.recordAllocation size false
      (.ok objectId, h')

/-- `Heap::collect_garbage`: the pedagogical single-object decrement. -/
def collect_garbage (h : Heap) : Nat × Heap :=
  if h.allocatedObjects > 0 then
    (1, { h with
          allocatedObjects := h.allocatedObjects - 1
          currentHeapSize := h.currentHeapSize - 50
          youngGenerationCount := h.youngGenerationCount - 1 })
  else (0, h)

end Heap

/-- `Opcode` from `instruction.rs`. -/
inductive Opcode where
  | add | sub | mul | div | mod
  | push | pop | dup | swap
  | jump | jumpIfTrue | jumpIfFalse | call | ret
  | equal | notEqual | lessThan | lessEqual | greaterThan | greaterEqual
  | and | or | not | xor
  | load | store | newObject | getField | setField
  | halt
deriving DecidableEq, Repr

/-- `Instruction` from `instruction.rs`: `(Opcode, Option<Value>)`. -/
structure Instruction where
  opcode : Opcode
  operand : Option Value

/-- `InstructionDispatcher` state from `instruction.rs`. -/
structure InstructionDispatcher where
  programCounter : Nat
  instructionCount : Nat
  branchPredictions : List (Nat × Bool)

namespace InstructionDispatcher

/-- `InstructionDispatcher::new`. -/
def new : InstructionDispatcher :=
  { programCounter := 0, instructionCount := 0, branchPredictions := [] }

end InstructionDispatcher

/-- Rust release-profile `i64` wrapping into `[-2^63, 2^63)`. -/
def wrap64 (z : Int) : Int := (z + 2 ^ 63) % 2 ^ 64 - 2 ^ 63

/-- The `Display` text of a `HeapError`, as embedded by
`execute_new_object`'s `format!`. -/
def heapErrorMessage : HeapError → String
  | .outOfMemory => "Out of memory"
  | .allocationFailed msg => "Allocation failed: " ++ msg
  | .invalidReference => "Invalid reference"

/-- `stack.pop()?` inside the dispatcher: a `StackError` is lifted into
`ExecutionError` by the `From` impl. -/
def popOperand (stack : OperandStack) :
    Except ExecutionError (Value × OperandStack) :=
  match stack.pop with
  | .error e => .error (.stackError e)
  | .ok p => .ok p

namespace InstructionDispatcher

/-- `execute_add`. -/
def executeAdd (stack : OperandStack) : Except ExecutionError OperandStack := do
  let (b, stack) ← popOperand stack
  let (a, stack) ← popOperand stack
  match a, b with
  | .integer a, .integer b => .ok (stack.push (.integer (wrap64 (a + b))))
  | .float a, .float b => .ok (stack.push (.float (FloatVal.fadd a b)))
  | .integer a, .float b => .ok (stack.push (.float (FloatVal.fadd (intToFloat a) b)))
  | .float a, .integer b => .ok (stack.push (.float (FloatVal.fadd a (intToFloat b))))
  | _, _ => .error (.typeError "Cannot add these types")

/-- `execute_sub`. -/
def executeSub (stack : OperandStack) : Except ExecutionError OperandStack := do
  let (b, stack) ← popOperand stack
  let (a, stack) ← popOperand stack
  match a, b with
  | .integer a, .integer b => .ok (stack.push (.integer (wrap64 (a - b))))
  | .float a, .float b => .ok (stack.push (.float (FloatVal.fsub a b)))
  | .integer a, .float b => .ok (stack.push (.float (FloatVal.fsub (intToFloat a) b)))
  | .float a, .integer b => .ok (stack.push (.float (FloatVal.fsub a (intToFloat b))))
  | _, _ => .error (.typeError "Cannot subtract these types")

/-- `execute_mul`. -/
def executeMul (stack : OperandStack) : Except ExecutionError OperandStack := do
  let (b, stack) ← popOperand stack
  let (a, stack) ← popOperand stack
  match a, b with
  | .integer a, .integer b => .ok (stack.push (.integer (wrap64 (a * b))))
  | .float a, .float b => .ok (stack.push (.float (FloatVal.fmul a b)))
  | .integer a, .float b => .ok (stack.push (.float (FloatVal.fmul (intToFloat a) b)))
  | .float a, .integer b => .ok (stack.push (.float (FloatVal.fmul a (intToFloat b))))
  | _, _ => .error (.typeError "Cannot multiply these types")

/-- `execute_div`.  Rust `/` on `i64` truncates toward zero
(`Int.tdiv`); each numeric arm tests its divisor for zero first. -/
def executeDiv (stack : OperandStack) : Except ExecutionError OperandStack := do
  let (b, stack) ← popOperand stack
  let (a, stack) ← popOperand stack
  match a, b with
  | .integer a, .integer b =>
      if b = 0 then .error .divisionByZero
      else .ok (stack.push (.integer (Int.tdiv a b)))
  | .float a, .float b =>
      if FloatVal.feq b FloatVal.zero then .error .divisionByZero
      else .ok (stack.push (.float (FloatVal.fdiv a b)))
  | .integer a, .float b =>
      if FloatVal.feq b FloatVal.zero then .error .divisionByZero
      else .ok (stack.push (.float (FloatVal.fdiv (intToFloat a) b)))
  | .float a, .integer b =>
      if b = 0 then .error .divisionByZero
      else .ok (stack.push (.float (FloatVal.fdiv a (intToFloat b))))
  | _, _ => .error (.typeError "Cannot divide these types")

/-- `execute_mod`.  Rust `%` on `i64` is the truncated remainder
(`Int.tmod`); only the Integer/Integer arm exists. -/
def executeMod (stack : OperandStack) : Except ExecutionError OperandStack := do
  let (b, stack) ← popOperand stack
  let (a, stack) ← popOperand stack
  match a, b with
  | .integer a, .integer b =>
      if b = 0 then .error .divisionByZero
      else .ok (stack.push (.integer (Int.tmod a b)))
  | _, _ => .error (.typeError "Modulo only supported for integers")

/-- `execute_push_with_constants`. -/
def executePushWithConstants (instruction : Instruction)
    (stack : OperandStack) (constants : List Value) :
    Except ExecutionError OperandStack :=
  match instruction.operand with
  | some (.integer index) =>
      if constants.isEmpty then
        .ok (stack.push (.integer index))
      else
        let constIndex := i64ToUsize index
        let poolSize := constants.length
        if constIndex ≥ constants.length then
          .error (.invalidOperand
            s!"Constant index {constIndex} out of bounds (pool size: {poolSize})")
        else
          .ok (stack.push (constants.getD constIndex .null))
  | some value => .ok (stack.push value)
  | none => .error .insufficientOperands

/-- `execute_pop`. -/
def executePop (stack : OperandStack) : Except ExecutionError OperandStack := do
  let (_, stack) ← popOperand stack
  .ok stack

/-- `execute_dup`. -/
def executeDup (stack : OperandStack) : Except ExecutionError OperandStack :=
  match stack.peek with
  | .error e => .error (.stackError e)
  | .ok value => .ok (stack.push value)

/-- `execute_swap`. -/
def executeSwap (stack : OperandStack) : Except ExecutionError OperandStack := do
  let (a, stack) ← popOperand stack
  let (b, stack) ← popOperand stack
  .ok ((stack.push a).push b)

/-- `execute_jump`. -/
def executeJump (d : InstructionDispatcher) (instruction : Instruction) :
    Except ExecutionError InstructionDispatcher :=
  match instruction.operand with
  | some (.integer addr) =>
      if addr < 0 then .error (.invalidJumpAddress addr)
      else .ok { d with programCounter := i64ToUsize addr }
  | _ => .error .insufficientOperands

/-- `execute_jump_if_true`. -/
def executeJumpIfTrue (d : InstructionDispatcher) (instruction : Instruction)
    (stack : OperandStack) :
    Except ExecutionError (InstructionDispatcher × OperandStack) := do
  let (condition, stack) ← popOperand stack
  if condition.is_truthy then
    match executeJump d instruction with
    | .error e => .error e
    | .ok d => .ok (d, stack)
  else
    .ok (d, stack)

/-- `execute_jump_if_false`. -/
def executeJumpIfFalse (d : InstructionDispatcher) (instruction : Instruction)
    (stack : OperandStack) :
    Except ExecutionError (InstructionDispatcher × OperandStack) := do
  let (condition, stack) ← popOperand stack
  if !condition.is_truthy then
    match executeJump d instruction with
    | .error e => .error e
    | .ok d => .ok (d, stack)
  else
    .ok (d, stack)

/-- `execute_call`: builds the frame with `local_count = 0`, pushes it
with `push_unchecked` (no depth check) and jumps. -/
def executeCall (d : InstructionDispatcher) (instruction : Instruction)
    (callStack : CallStack) :
    Except ExecutionError (InstructionDispatcher × CallStack) :=
  match instruction.operand with
  | some (.integer functionAddr) =>
      if functionAddr < 0 then .error (.invalidJumpAddress functionAddr)
      else
        let returnAddr := d.programCounter + 1
        let frame := CallFrame.new (i64ToUsize functionAddr) returnAddr 0
        let callStack := callStack.push_unchecked frame
        .ok ({ d with programCounter := i64ToUsize functionAddr }, callStack)
  | _ => .error .insufficientOperands

/-- `execute_return`. -/
def executeReturn (d : InstructionDispatcher) (callStack : CallStack) :
    Except ExecutionError (InstructionDispatcher × CallStack) :=
  match callStack.pop with
  | .error e => .error (.callFrameError e)
  | .ok (frame, callStack) =>
      .ok ({ d with programCounter := frame.returnAddress }, callStack)

/-- `execute_equal`: the derived `PartialEq`, no cross-widening. -/
def executeEqual (stack : OperandStack) : Except ExecutionError OperandStack := do
  let (b, stack) ← popOperand stack
  let (a, stack) ← popOperand stack
  .ok (stack.push (.boolean (valueEq a b)))

/-- `execute_not_equal`. -/
def executeNotEqual (stack : OperandStack) : Except ExecutionError OperandStack := do
  let (b, stack) ← popOperand stack
  let (a, stack) ← popOperand stack
  .ok (stack.push (.boolean (!valueEq a b)))

/-- `execute_less_than`: numeric comparison with Integer↔Float
cross-widening. -/
def executeLessThan (stack : OperandStack) : Except ExecutionError OperandStack := do
  let (b, stack) ← popOperand stack
  let (a, stack) ← popOperand stack
  match a, b with
  | .integer a, .integer b => .ok (stack.push (.boolean (a < b)))
  | .float a, .float b => .ok (stack.push (.boolean (FloatVal.flt a b)))
  | .integer a, .float b => .ok (stack.push (.boolean (FloatVal.flt (intToFloat a) b)))
  | .float a, .integer b => .ok (stack.push (.boolean (FloatVal.flt a (intToFloat b))))
  | _, _ => .error (.typeError "Cannot compare these types")

/-- `execute_less_equal`. -/
def executeLessEqual (stack : OperandStack) : Except ExecutionError OperandStack := do
  let (b, stack) ← popOperand stack
  let (a, stack) ← popOperand stack
  match a, b with
  | .integer a, .integer b => .ok (stack.push (.boolean (a ≤ b)))
  | .float a, .float b => .ok (stack.push (.boolean (FloatVal.fle a b)))
  | .integer a, .float b => .ok (stack.push (.boolean (FloatVal.fle (intToFloat a) b)))
  | .float a, .integer b => .ok (stack.push (.boolean (FloatVal.fle a (intToFloat b))))
  | _, _ => .error (.typeError "Cannot compare these types")

/-- `execute_greater_than`. -/
def executeGreaterThan (stack : OperandStack) : Except ExecutionError OperandStack := do
  let (b, stack) ← popOperand stack
  let (a, stack) ← popOperand stack
  match a, b with
  | .integer a, .integer b => .ok (stack.push (.boolean (a > b)))
  | .float a, .float b => .ok (stack.push (.boolean (FloatVal.flt b a)))
  | .integer a, .float b => .ok (stack.push (.boolean (FloatVal.flt b (intToFloat a))))
  | .float a, .integer b => .ok (stack.push (.boolean (FloatVal.flt (intToFloat b) a)))
  | _, _ => .error (.typeError "Cannot compare these types")

/-- `execute_greater_equal`. -/
def executeGreaterEqual (stack : OperandStack) : Except ExecutionError OperandStack := do
  let (b, stack) ← popOperand stack
  let (a, stack) ← popOperand stack
  match a, b with
  | .integer a, .integer b => .ok (stack.push (.boolean (a ≥ b)))
  | .float a, .float b => .ok (stack.push (.boolean (FloatVal.fle b a)))
  | .integer a, .float b => .ok (stack.push (.boolean (FloatVal.fle b (intToFloat a))))
  | .float a, .integer b => .ok (stack.push (.boolean (FloatVal.fle (intToFloat b) a)))
  | _, _ => .error (.typeError "Cannot compare these types")

/-- `execute_and` (not short-circuiting: both operands popped). -/
def executeAnd (stack : OperandStack) : Except ExecutionError OperandStack := do
  let (b, stack) ← popOperand stack
  let (a, stack) ← popOperand stack
  .ok (stack.push (.boolean (a.is_truthy && b.is_truthy)))

/-- `execute_or`. -/
def executeOr (stack : OperandStack) : Except ExecutionError OperandStack := do
  let (b, stack) ← popOperand stack
  let (a, stack) ← popOperand stack
  .ok (stack.push (.boolean (a.is_truthy || b.is_truthy)))

/-- `execute_not`. -/
def executeNot (stack : OperandStack) : Except ExecutionError OperandStack := do
  let (a, stack) ← popOperand stack
  .ok (stack.push (.boolean (!a.is_truthy)))

/-- `execute_xor`. -/
def executeXor (stack : OperandStack) : Except ExecutionError OperandStack := do
  let (b, stack) ← popOperand stack
  let (a, stack) ← popOperand stack
  .ok (stack.push (.boolean (a.is_truthy != b.is_truthy)))

/-- `execute_load`. -/
def executeLoad (instruction : Instruction) (stack : OperandStack)
    (callStack : CallStack) : Except ExecutionError OperandStack := do
  let localIndex ←
    match instruction.operand with
    | some (.integer index) => .ok (i64ToUsize index)
    | some _ => .error (.invalidOperand "Load instruction requires integer operand")
    | none => .error (.invalidOperand "Load instruction requires operand")
  let currentFrame ←
    match callStack.current with
    | .error e => .error (.callFrameError e)
    | .ok f => .ok f
  match currentFrame.get_local localIndex with
  | .error e => .error (.callFrameError e)
  | .ok value => .ok (stack.push value)

/-- `execute_store`. -/
def executeStore (instruction : Instruction) (stack : OperandStack)
    (callStack : CallStack) :
    Except ExecutionError (OperandStack × CallStack) := do
  let localIndex ←
    match instruction.operand with
    | some (.integer index) => .ok (i64ToUsize index)
    | some _ => .error (.invalidOperand "Store instruction requires integer operand")
    | none => .error (.invalidOperand "Store instruction requires operand")
  let (value, stack) ← popOperand stack
  let currentFrame ←
    match callStack.current with
    | .error e => .error (.callFrameError e)
    | .ok f => .ok f
  match currentFrame.set_local localIndex value with
  | .error e => .error (.callFrameError e)
  | .ok frame => .ok (stack, callStack.set_current frame)

/-- `execute_new_object`. -/
def executeNewObject (stack : OperandStack) (heap : Heap) :
    Except ExecutionError (OperandStack × Heap) :=
  let obj := HeapObject.new
  match heap.allocate_object obj with
  | (.ok objectId, heap) =>
      .ok (stack.push (.gcObject objectId obj.fields), heap)
  | (.error heapError, _) =>
      .error (.invalidOperand
        ("Failed to allocate object: " ++ heapErrorMessage heapError))

/-- `execute_get_field`. -/
def executeGetField (instruction : Instruction) (stack : OperandStack) :
    Except ExecutionError OperandStack := do
  let fieldName ←
    match instruction.operand with
    | some (.string name) => .ok name
    | some (.integer index) => .ok ("field_" ++ toString index)
    | some _ =>
        .error (.invalidOperand
          "GetField instruction requires string or integer operand")
    | none => .error (.invalidOperand "GetField instruction requires operand")
  let (object, stack) ← popOperand stack
  match object with
  | .gcObject _ fields =>
      match List.lookup fieldName fields with
      | some fieldValue => .ok (stack.push fieldValue)
      | none => .ok (stack.push .null)
  | _ => .error (.typeError "GetField can only be used on objects")

/-- `execute_set_field`: the `&mut` operand stack is returned alongside
the result, because the documented limitation makes the error path's
stack contents (restored by re-pushing) the interesting observable. -/
def executeSetField (instruction : Instruction) (stack : OperandStack) :
    Except ExecutionError Unit × OperandStack :=
  match instruction.operand with
  | some (.string _) | some (.integer _) =>
      (match stack.pop with
       | .error e => (.error (.stackError e), stack)
       | .ok (value, stack) =>
         match stack.pop with
         | .error e => (.error (.stackError e), stack)
         | .ok (object, stack) =>
           match object with
           | .gcObject objectId fields =>
               (.error (.invalidOperand
                  "SetField not yet implemented - requires interior mutability in GcPtr"),
                (stack.push (.gcObject objectId fields)).push value)
           | _ =>
               (.error (.typeError "SetField can only be used on objects"),
                (stack.push object).push value))
  | some _ =>
      (.error (.invalidOperand
        "SetField instruction requires string or integer operand"), stack)
  | none =>
      (.error (.invalidOperand "SetField instruction requires operand"), stack)

end InstructionDispatcher

/-- `HashMap::entry(k).or_insert(dflt)` followed by an in-place update
`f`, on the association-list model: the first binding of `k` is updated,
a missing key is inserted as `f dflt`. -/
def alistUpdate {α β : Type} [DecidableEq α] (k : α) (f : β → β) (dflt : β) :
    List (α × β) → List (α × β)
  | [] => [(k, f dflt)]
  | (k', v) :: rest =>
      if k' = k then (k', f v) :: rest
      else (k', v) :: alistUpdate k f dflt rest

/-- `ProfiledInstruction` from `jit.rs`. -/
structure ProfiledInstruction where
  pc : Nat
  opcode : Opcode
  executionCount : Nat
deriving DecidableEq, Repr

/-- `TypeProfile` from `jit.rs`. -/
structure TypeProfile where
  typeCounts : List (String × Nat)
  totalObservations : Nat
deriving DecidableEq, Repr

namespace TypeProfile

/-- `TypeProfile::new`. -/
def new : TypeProfile := { typeCounts := [], totalObservations := 0 }

/-- `TypeProfile::record_observation`:
`*entry(type_name).or_insert(0) += 1` and a total bump. -/
def record_observation (tp : TypeProfile) (typeName : String) : TypeProfile :=
  { tp with
    typeCounts := alistUpdate typeName (· + 1) 0 tp.typeCounts
    totalObservations := tp.totalObservations + 1 }

/-- `TypeProfile::get_type_frequency`. -/
def get_type_frequency (tp : TypeProfile) (typeName : String) : Nat :=
  (List.lookup typeName tp.typeCounts).getD 0

end TypeProfile

/-- `BranchProfile` from `jit.rs`. -/
structure BranchProfile where
  takenCount : Nat
  notTakenCount : Nat
deriving DecidableEq, Repr

namespace BranchProfile

/-- `BranchProfile::new`. -/
def new : BranchProfile := { takenCount := 0, notTakenCount := 0 }

/-- `BranchProfile::record_branch`. -/
def record_branch (bp : BranchProfile) (taken : Bool) : BranchProfile :=
  if taken then { bp with takenCount := bp.takenCount + 1 }
  else { bp with notTakenCount := bp.notTakenCount + 1 }

/-- `BranchProfile::total_branches`. -/
def total_branches (bp : BranchProfile) : Nat := bp.takenCount + bp.notTakenCount

end BranchProfile

/-- `HotSpotProfiler` state from `jit.rs`. -/
structure HotSpotProfiler where
  functionCounts : List (Nat × Nat)
  functionThreshold : Nat
  loopCounts : List (Nat × Nat)
  loopThreshold : Nat
  typeProfiles : List (Nat × TypeProfile)
  branchProfiles : List (Nat × BranchProfile)
  instructionProfiles : List (Nat × ProfiledInstruction)
  deoptimizationCounts : List (Nat × Nat)
  deoptimizationReasons : List (Nat × List String)
  totalExecutions : Nat
deriving DecidableEq, Repr

/-- `ProfileData` from `jit.rs`: the serialized profile document.  The
`serde_json` string encode/decode pair is collapsed (`from_str ∘
to_string = id` on this record); the lossy part of the round trip —
`usize` keys printed with `to_string` and re-read with `parse`, and
`TypeProfile::total_observations` being recomputed — is modelled
explicitly.  A printed key is its little-endian decimal digit list
(`Nat.digits 10`), which determines the string uniquely. -/
structure ProfileData where
  functionCounts : List (Nat × Nat)
  loopCounts : List (Nat × Nat)
  typeProfiles : List (List Nat × List (String × Nat))
  branchProfiles : List (List Nat × (Nat × Nat))
deriving DecidableEq, Repr

/-- `pc.to_string()` on the digit-list model of decimal strings. -/
def natKey (pc : Nat) : List Nat := Nat.digits 10 pc

/-- `pc_str.parse::<usize>()`: succeeds exactly on all-digit strings. -/
def parseKey (ds : List Nat) : Option Nat :=
  if ds.all (· < 10) then some (Nat.ofDigits 10 ds) else none

namespace HotSpotProfiler

/-- `HotSpotProfiler::new`. -/
def new : HotSpotProfiler :=
  { functionCounts := []
    functionThreshold := 1000
    loopCounts := []
    loopThreshold := 10000
    typeProfiles := []
    branchProfiles := []
    instructionProfiles := []
    deoptimizationCounts := []
    deoptimizationReasons := []
    totalExecutions := 0 }

/-- `record_function_entry`. -/
def record_function_entry (p : HotSpotProfiler) (functionId : Nat) :
    HotSpotProfiler :=
  { p with
    functionCounts := alistUpdate functionId (· + 1) 0 p.functionCounts
    totalExecutions := p.totalExecutions + 1 }

/-- `get_function_count`. -/
def get_function_count (p : HotSpotProfiler) (functionId : Nat) : Nat :=
  (List.lookup functionId p.functionCounts).getD 0

/-- `record_loop_iteration`. -/
def record_loop_iteration (p : HotSpotProfiler) (loopPc : Nat) :
    HotSpotProfiler :=
  { p with
    loopCounts := alistUpdate loopPc (· + 1) 0 p.loopCounts
    totalExecutions := p.totalExecutions + 1 }

/-- `get_loop_count`. -/
def get_loop_count (p : HotSpotProfiler) (loopPc : Nat) : Nat :=
  (List.lookup loopPc p.loopCounts).getD 0

/-- `record_type_observation`. -/
def record_type_observation (p : HotSpotProfiler) (pc : Nat) (value : Value) :
    HotSpotProfiler :=
  { p with
    typeProfiles :=
      alistUpdate pc (·.record_observation value.type_name) TypeProfile.new
        p.typeProfiles }

/-- `get_type_profile`. -/
def get_type_profile (p : HotSpotProfiler) (pc : Nat) : Option TypeProfile :=
  List.lookup pc p.typeProfiles

/-- `record_branch_taken`. -/
def record_branch_taken (p : HotSpotProfiler) (pc : Nat) (taken : Bool) :
    HotSpotProfiler :=
  { p with
    branchProfiles :=
      alistUpdate pc (·.record_branch taken) BranchProfile.new
        p.branchProfiles }

/-- `get_branch_profile`. -/
def get_branch_profile (p : HotSpotProfiler) (pc : Nat) : Option BranchProfile :=
  List.lookup pc p.branchProfiles

/-- `record_instruction_execution`. -/
def record_instruction_execution (p : HotSpotProfiler) (pc : Nat)
    (opcode : Opcode) : HotSpotProfiler :=
  { p with
    instructionProfiles :=
      alistUpdate pc
        (fun profile => { profile with executionCount := profile.executionCount + 1 })
        { pc := pc, opcode := opcode, executionCount := 0 }
        p.instructionProfiles }

/-- `serialize_type_profiles`. -/
def serialize_type_profiles (p : HotSpotProfiler) :
    List (List Nat × List (String × Nat)) :=
  p.typeProfiles.map fun (pc, profile) => (natKey pc, profile.typeCounts)

/-- `deserialize_type_profiles`: keys that fail to parse are dropped;
`total_observations` is recomputed as the sum of the restored counts. -/
def deserialize_type_profiles (data : List (List Nat × List (String × Nat))) :
    List (Nat × TypeProfile) :=
  data.filterMap fun (pcStr, typeCounts) =>
    (parseKey pcStr).map fun pc =>
      (pc, { typeCounts := typeCounts
             totalObservations := (typeCounts.map Prod.snd).sum })

/-- `serialize_branch_profiles`. -/
def serialize_branch_profiles (p : HotSpotProfiler) :
    List (List Nat × (Nat × Nat)) :=
  p.branchProfiles.map fun (pc, profile) =>
    (natKey pc, (profile.takenCount, profile.notTakenCount))

/-- `deserialize_branch_profiles`. -/
def deserialize_branch_profiles (data : List (List Nat × (Nat × Nat))) :
    List (Nat × BranchProfile) :=
  data.filterMap fun (pcStr, counts) =>
    (parseKey pcStr).map fun pc =>
      (pc, { takenCount := counts.1, notTakenCount := counts.2 })

/-- `export_profile_data`. -/
def export_profile_data (p : HotSpotProfiler) : ProfileData :=
  { functionCounts := p.functionCounts
    loopCounts := p.loopCounts
    typeProfiles := p.serialize_type_profiles
    branchProfiles := p.serialize_branch_profiles }

/-- `import_profile_data` (the parse of a well-formed document never
fails, so the `Result` is collapsed to the restored state). -/
def import_profile_data (p : HotSpotProfiler) (data : ProfileData) :
    HotSpotProfiler :=
  { p with
    functionCounts := data.functionCounts
    loopCounts := data.loopCounts
    typeProfiles := deserialize_type_profiles data.typeProfiles
    branchProfiles := deserialize_branch_profiles data.branchProfiles }

end HotSpotProfiler

namespace InstructionDispatcher

/-- `InstructionDispatcher::execute_with_constants`: bumps the instruction
counter, then dispatches on the opcode, threading the mutated state. -/
def executeWithConstants (d : InstructionDispatcher)
    (instruction : Instruction) (stack : OperandStack)
    (callStack : CallStack) (constants : List Value) (heap : Heap) :
    Except ExecutionError
      (InstructionDispatcher × OperandStack × CallStack × Heap) :=
  let d := { d with instructionCount := d.instructionCount + 1 }
  match instruction.opcode with
  | .add =>
      match executeAdd stack with
      | .error e => .error e
      | .ok stack => .ok (d, stack, callStack, heap)
  | .sub =>
      match executeSub stack with
      | .error e => .error e
      | .ok stack => .ok (d, stack, callStack, heap)
  | .mul =>
      match executeMul stack with
      | .error e => .error e
      | .ok stack => .ok (d, stack, callStack, heap)
  | .div =>
      match executeDiv stack with
      | .error e => .error e
      | .ok stack => .ok (d, stack, callStack, heap)
  | .mod =>
      match executeMod stack with
      | .error e => .error e
      | .ok stack => .ok (d, stack, callStack, heap)
  | .push =>
      match executePushWithConstants instruction stack constants with
      | .error e => .error e
      | .ok stack => .ok (d, stack, callStack, heap)
  | .pop =>
      match executePop stack with
      | .error e => .error e
      | .ok stack => .ok (d, stack, callStack, heap)
  | .dup =>
      match executeDup stack with
      | .error e => .error e
      | .ok stack => .ok (d, stack, callStack, heap)
  | .swap =>
      match executeSwap stack with
      | .error e => .error e
      | .ok stack => .ok (d, stack, callStack, heap)
  | .jump =>
      match executeJump d instruction with
      | .error e => .error e
      | .ok d => .ok (d, stack, callStack, heap)
  | .jumpIfTrue =>
      match executeJumpIfTrue d instruction stack with
      | .error e => .error e
      | .ok (d, stack) => .ok (d, stack, callStack, heap)
  | .jumpIfFalse =>
      match executeJumpIfFalse d instruction stack with
      | .error e => .error e
      | .ok (d, stack) => .ok (d, stack, callStack, heap)
  | .call =>
      match executeCall d instruction callStack with
      | .error e => .error e
      | .ok (d, callStack) => .ok (d, stack, callStack, heap)
  | .ret =>
      match executeReturn d callStack with
      | .error e => .error e
      | .ok (d, callStack) => .ok (d, stack, callStack, heap)
  | .equal =>
      match executeEqual stack with
      | .error e => .error e
      | .ok stack => .ok (d, stack, callStack, heap)
  | .notEqual =>
      match executeNotEqual stack with
      | .error e => .error e
      | .ok stack => .ok (d, stack, callStack, heap)
  | .lessThan =>
      match executeLessThan stack with
      | .error e => .error e
      | .ok stack => .ok (d, stack, callStack, heap)
  | .lessEqual =>
      match executeLessEqual stack with
      | .error e => .error e
      | .ok stack => .ok (d, stack, callStack, heap)
  | .greaterThan =>
      match executeGreaterThan stack with
      | .error e => .error e
      | .ok stack => .ok (d, stack, callStack, heap)
  | .greaterEqual =>
      match executeGreaterEqual stack with
      | .error e => .error e
      | .ok stack => .ok (d, stack, callStack, heap)
  | .and =>
      match executeAnd stack with
      | .error e => .error e
      | .ok stack => .ok (d, stack, callStack, heap)
  | .or =>
      match executeOr stack with
      | .error e => .error e
      | .ok stack => .ok (d, stack, callStack, heap)
  | .not =>
      match executeNot stack with
      | .error e => .error e
      | .ok stack => .ok (d, stack, callStack, heap)
  | .xor =>
      match executeXor stack with
      | .error e => .error e
      | .ok stack => .ok (d, stack, callStack, heap)
  | .load =>
      match executeLoad instruction stack callStack with
      | .error e => .error e
      | .ok stack => .ok (d, stack, callStack, heap)
  | .store =>
      match executeStore instruction stack callStack with
      | .error e => .error e
      | .ok (stack, callStack) => .ok (d, stack, callStack, heap)
  | .newObject =>
      match executeNewObject stack heap with
      | .error e => .error e
      | .ok (stack, heap) => .ok (d, stack, callStack, heap)
  | .getField =>
      match executeGetField instruction stack with
      | .error e => .error e
      | .ok stack => .ok (d, stack, callStack, heap)
  | .setField =>
      match executeSetField instruction stack with
      | (.error e, _) => .error e
      | (.ok _, stack) => .ok (d, stack, callStack, heap)
  | .halt => .ok (d, stack, callStack, heap)

end InstructionDispatcher

/-- The five control-flow opcodes, which manage their own PC
(`runtime.rs` `step`, final `match`). -/
def Opcode.isControlFlow : Opcode → Bool
  | .jump | .jumpIfTrue | .jumpIfFalse | .call | .ret => true
  | _ => false

/-- `VirtualMachine` from `runtime.rs`. -/
structure VirtualMachine where
  operandStack : OperandStack
  callStack : CallStack
  dispatcher : InstructionDispatcher
  program : List Instruction
  constants : List Value
  heap : Heap
  profiler : Option HotSpotProfiler
  halted : Bool
  maxInstructions : Nat

namespace VirtualMachine

def DEFAULT_MAX_INSTRUCTIONS : Nat := 1000000

/-- `VirtualMachine::new`. -/
def new : VirtualMachine :=
  { operandStack := OperandStack.new
    callStack := CallStack.new
    dispatcher := InstructionDispatcher.new
    program := []
    constants := []
    heap := Heap.new
    profiler := none
    halted := false
    maxInstructions := DEFAULT_MAX_INSTRUCTIONS }

/-- `VirtualMachine::with_max_instructions`. -/
def with_max_instructions (maxInstructions : Nat) : VirtualMachine :=
  { new with maxInstructions := maxInstructions }

/-- `VirtualMachine::reset`. -/
def reset (vm : VirtualMachine) : VirtualMachine :=
  { vm with
    operandStack := vm.operandStack.clear
    callStack := vm.callStack.clear
    dispatcher := InstructionDispatcher.new
    halted := false }

/-- `VirtualMachine::load_program`. -/
def load_program (vm : VirtualMachine) (program : List Instruction) :
    VirtualMachine :=
  ({ vm with program := program }).reset

/-- `VirtualMachine::load_bytecode_module`. -/
def load_bytecode_module (vm : VirtualMachine)
    (instructions : List Instruction) (constants : List Value) :
    Except VmError VirtualMachine :=
  if instructions.isEmpty then
    .error (.invalidProgramState "Cannot load empty instruction list")
  else
    .ok ({ vm with program := instructions, constants := constants }).reset

/-- `VirtualMachine::step`. -/
def step (vm : VirtualMachine) : Except VmError VirtualMachine :=
  if vm.halted then .ok vm
  else if vm.program.isEmpty then .error .noProgram
  else
    let pc := vm.dispatcher.programCounter
    if hpc : pc < vm.program.length then
      let instruction := vm.program.get ⟨pc, hpc⟩
      if instruction.opcode = .halt then .ok { vm with halted := true }
      else
        let vm :=
          match vm.profiler with
          | some profiler =>
              { vm with
                profiler :=
                  some (profiler.record_instruction_execution pc instruction.opcode) }
          | none => vm
        match InstructionDispatcher.executeWithConstants vm.dispatcher
            instruction vm.operandStack vm.callStack vm.constants vm.heap with
        | .error e => .error (.executionError e)
        | .ok (d, stack, callStack, heap) =>
            let d :=
              if instruction.opcode.isControlFlow then d
              else { d with programCounter := pc + 1 }
            .ok { vm with
                  dispatcher := d
                  operandStack := stack
                  callStack := callStack
                  heap := heap }
    else .error (.programCounterOutOfBounds pc vm.program.length)

/-- The post-loop check of `run`: quota exhaustion is the distinguished
`InvalidProgramState` error. -/
def runPost (vm : VirtualMachine) : Except VmError VirtualMachine :=
  if vm.dispatcher.instructionCount ≥ vm.maxInstructions then
    .error (.invalidProgramState "Maximum instruction count exceeded")
  else .ok vm

/-- The `while !halted && count < max` loop of `run`.  Every iteration
either sets `halted` (ending the loop) or increments the dispatcher's
instruction count, so `max - count + 1` iterations always reach the
loop's exit condition: the fuel-0 branch, which behaves like the loop
exit, is unreachable from `run` below. -/
def runLoop : Nat → VirtualMachine → Except VmError VirtualMachine
  | 0, vm => runPost vm
  | fuel + 1, vm =>
      if !vm.halted && vm.dispatcher.instructionCount < vm.maxInstructions then
        match step vm with
        | .error e => .error e
        | .ok vm => runLoop fuel vm
      else runPost vm

/-- `VirtualMachine::run`. -/
def run (vm : VirtualMachine) : Except VmError VirtualMachine :=
  if vm.program.isEmpty then .error .noProgram
  else runLoop (vm.maxInstructions + 1 - vm.dispatcher.instructionCount) vm

/-- `VirtualMachine::stack_size`. -/
def stack_size (vm : VirtualMachine) : Nat := vm.operandStack.size

/-- `VirtualMachine::call_depth`. -/
def call_depth (vm : VirtualMachine) : Nat := vm.callStack.depth

/-- `VirtualMachine::program_counter`. -/
def program_counter (vm : VirtualMachine) : Nat :=
  vm.dispatcher.programCounter

/-- `VirtualMachine::stack_top`. -/
def stack_top (vm : VirtualMachine) : Except VmError Value :=
  match vm.operandStack.peek with
  | .error e => .error (.executionError (.stackError e))
  | .ok v => .ok v

/-- `VirtualMachine::instruction_count`. -/
def instruction_count (vm : VirtualMachine) : Nat :=
  vm.dispatcher.instructionCount

end VirtualMachine

/-- The operand tag is `Integer`. -/
def Value.isInteger : Value → Bool
  | .integer _ => true
  | _ => false

/-- The operand tag is `Float`. -/
def Value.isFloat : Value → Bool
  | .float _ => true
  | _ => false

/-- The operand is numeric: `Integer` or `Float`. -/
def Value.isNumeric (v : Value) : Bool := v.isInteger || v.isFloat

/-- The zero test the `Div`/`Mod` arms apply to their divisor:
`b == 0` for an Integer, `b == 0.0` for a Float, false otherwise. -/
def Value.divisorIsZero : Value → Bool
  | .integer n => n == 0
  | .float f => FloatVal.feq f FloatVal.zero
  | _ => false

/-- The arithmetic end-to-end scenario program of the spec:
`Push 5; Push 3; Add; Push 2; Mul; Halt`. -/
def arithProgram : List Instruction :=
  [ ⟨.push, some (.integer 5)⟩
  , ⟨.push, some (.integer 3)⟩
  , ⟨.add, none⟩
  , ⟨.push, some (.integer 2)⟩
  , ⟨.mul, none⟩
  , ⟨.halt, none⟩ ]

/-- A `SetField` operand the instruction accepts: a `String` or an
`Integer` (anything else is rejected before any pop). -/
def validFieldOperand : Value → Bool
  | .string _ => true
  | .integer _ => true
  | _ => false

/-- Representation invariant of `TypeProfile`, maintained by
`record_observation` (both the count and the total are bumped
together): the stored total equals the sum of the per-type counts. -/
def TypeProfile.totalsOk (tp : TypeProfile) : Bool :=
  tp.totalObservations == (tp.typeCounts.map Prod.snd).sum

/-- Representation invariant of the profiler: every per-PC type profile
satisfies `TypeProfile.totalsOk`. -/
def HotSpotProfiler.totalsOk (p : HotSpotProfiler) : Bool :=
  p.typeProfiles.all fun e => e.2.totalsOk

/-- Semantic equality of two profiler states as observed through the
profile queries named by the spec: function counts, loop counts, type
profiles (per-type frequency and observation total, hence also
`is_monomorphic`), and branch profiles (taken/not-taken counts, hence
also `predict_taken`). -/
def profilerQueriesAgree (p q : HotSpotProfiler) : Prop :=
  (∀ functionId, p.get_function_count functionId = q.get_function_count functionId) ∧
  (∀ loopPc, p.get_loop_count loopPc = q.get_loop_count loopPc) ∧
  (∀ pc typeName,
    (p.get_type_profile pc).map (·.get_type_frequency typeName) =
      (q.get_type_profile pc).map (·.get_type_frequency typeName)) ∧
  (∀ pc,
    (p.get_type_profile pc).map (·.totalObservations) =
      (q.get_type_profile pc).map (·.totalObservations)) ∧
  (∀ pc, p.get_branch_profile pc = q.get_branch_profile pc)

/-- C1 counterexample: running `Push 5; Push 3; Add; Push 2; Mul; Halt`
on a fresh VM via `run` does succeed with `Integer(16)` on top, but the
final instruction count is 5, not 6: `step` flips the halted flag when it
sees `Halt` and returns before dispatching, so `Halt` is never counted. -/
theorem c1_counterexample :
    (VirtualMachine.run (VirtualMachine.new.load_program arithProgram)).toOption.map
        (fun vm => (vm.stack_top.toOption, vm.instruction_count)) =
      some (some (Value.integer 16), 5) ∧
    (VirtualMachine.run (VirtualMachine.new.load_program arithProgram)).toOption.map
        (fun vm => vm.instruction_count) ≠ some 6 := by
  exact ⟨rfl, by decide⟩

/-- C1 (amended): running `Push 5; Push 3; Add; Push 2; Mul; Halt` on a
fresh VM (empty constants pool) via `run` succeeds, leaves `Integer(16)`
on top of the operand stack, sets the halted flag, and ends with an
instruction count of 5 (the final `Halt` is consumed by `step` without
being dispatched, so it is not counted). -/
theorem c1_arithmetic_scenario :
    (VirtualMachine.run (VirtualMachine.new.load_program arithProgram)).toOption.map
        (fun vm => (vm.stack_top.toOption, vm.instruction_count, vm.halted)) =
      some (some (Value.integer 16), 5, true) := by
  rfl

/-- C2 counterexample: on a call stack with `max_depth = 0` the `Call`
opcode still succeeds — `execute_call` pushes with `push_unchecked` — and
the resulting depth 1 exceeds the configured maximum 0, so the depth
check is not enforced on the frame pushed by `Call`. -/
theorem c2_counterexample :
    (InstructionDispatcher.executeCall InstructionDispatcher.new
        ⟨.call, some (.integer 0)⟩ (CallStack.with_max_depth 0)).toOption.map
      (fun r => (r.2.depth, r.2.maxDepth, decide (r.2.depth ≤ r.2.maxDepth))) =
    some (1, 0, false) := by
  rfl

/-- C2 (amended): `CallStack::push` refuses to push a frame once the
depth has reached the configured maximum (default 10 000) and pushes
below it; but the frame pushed by the `Call` opcode goes through
`push_unchecked`, which never checks: `Call` with a non-negative target
succeeds at every depth and always grows the call stack by one, so the
ceiling is not enforced on that path. -/
theorem c2_call_stack_ceiling :
    (∀ (cs : CallStack) (frame : CallFrame),
      (cs.depth ≥ cs.maxDepth → cs.push frame = .error .stackUnderflow) ∧
      (cs.depth < cs.maxDepth → cs.push frame = .ok (cs.push_unchecked frame))) ∧
    (∀ (d : InstructionDispatcher) (cs : CallStack) (addr : Int), 0 ≤ addr →
      InstructionDispatcher.executeCall d ⟨.call, some (.integer addr)⟩ cs =
        .ok ({ d with programCounter := i64ToUsize addr },
             cs.push_unchecked
               (CallFrame.new (i64ToUsize addr) (d.programCounter + 1) 0)) ∧
      (cs.push_unchecked
          (CallFrame.new (i64ToUsize addr) (d.programCounter + 1) 0)).depth =
        cs.depth + 1) := by
  constructor
  · intro cs frame
    constructor
    · intro h
      simp only [CallStack.push, if_pos (by simpa [CallStack.depth] using h)]
    · intro h
      have h' : ¬ (cs.frames.length ≥ cs.maxDepth) := Nat.not_le.mpr h
      simp only [CallStack.push, CallStack.push_unchecked, if_neg h']
  · intro d cs addr h
    refine ⟨?_, rfl⟩
    simp only [InstructionDispatcher.executeCall, if_neg (Int.not_lt.mpr h)]

/-- C2 witness: the two provable parts of the amended claim at concrete
inputs — a checked push below the ceiling succeeds, and a `Call` on a
fresh call stack pushes unconditionally. -/
theorem c2_witness :
    CallStack.new.push (CallFrame.new 0 0 0) =
      .ok (CallStack.new.push_unchecked (CallFrame.new 0 0 0)) ∧
    InstructionDispatcher.executeCall InstructionDispatcher.new
        ⟨.call, some (.integer 0)⟩ CallStack.new =
      .ok ({ InstructionDispatcher.new with programCounter := i64ToUsize 0 },
           CallStack.new.push_unchecked (CallFrame.new (i64ToUsize 0) 1 0)) :=
  ⟨(c2_call_stack_ceiling.1 CallStack.new (CallFrame.new 0 0 0)).2 (by decide),
   (c2_call_stack_ceiling.2 InstructionDispatcher.new CallStack.new 0 (by decide)).1⟩

/-- C3 counterexample: `Equal` uses the derived `PartialEq`, which never
cross-widens: with `Integer(1)` beneath `Float(1.0)` it pushes
`Boolean(false)` (the claim says `Boolean(true)`), and with the
non-numeric mix `Integer(1)` / `Boolean(true)` it pushes
`Boolean(false)` instead of the claimed `TypeError`. -/
theorem c3_counterexample :
    InstructionDispatcher.executeEqual
        { values := [Value.float (.finite 1), Value.integer 1], maxSize := none } =
      .ok { values := [Value.boolean false], maxSize := none } ∧
    InstructionDispatcher.executeEqual
        { values := [Value.boolean true, Value.integer 1], maxSize := none } =
      .ok { values := [Value.boolean false], maxSize := none } := by
  exact ⟨rfl, rfl⟩

/-- C3 (amended): `Equal` and `NotEqual` pop two values and push a
Boolean and never produce a `TypeError`; the comparison is the strict
structural equality of the tagged values (derived `PartialEq`): same-tag
Integer operands compare mathematically, but Integer and Float are never
cross-widened, so `Equal` on `Integer(n)` and `Float(f)` is `false`
regardless of the numeric values (the ordering comparisons, not `Equal`,
are the ones that cross-widen). -/
theorem c3_equal_structural :
    (∀ (a b : Value) (rest : List Value) (ms : Option Nat),
      InstructionDispatcher.executeEqual { values := b :: a :: rest, maxSize := ms } =
        .ok { values := Value.boolean (valueEq a b) :: rest, maxSize := ms } ∧
      InstructionDispatcher.executeNotEqual { values := b :: a :: rest, maxSize := ms } =
        .ok { values := Value.boolean (!valueEq a b) :: rest, maxSize := ms }) ∧
    (∀ m n : Int, valueEq (.integer m) (.integer n) = (m == n)) ∧
    (∀ (n : Int) (f : FloatVal),
      valueEq (.integer n) (.float f) = false ∧
      valueEq (.float f) (.integer n) = false) := by
  refine ⟨fun a b rest ms => ⟨rfl, rfl⟩, fun m n => ?_, fun n f => ⟨?_, ?_⟩⟩
  · simp [valueEq]
  · simp [valueEq]
  · simp [valueEq]

/-- A value is numeric exactly when it is an `Integer` or a `Float`. -/
theorem isNumeric_iff (v : Value) :
    v.isNumeric = true ↔ (∃ m, v = .integer m) ∨ (∃ f, v = .float f) := by
  cases v <;> simp [Value.isNumeric, Value.isInteger, Value.isFloat]

/-- C4: `Push` semantics of `execute_push_with_constants`: a missing
operand is `InsufficientOperands`; an Integer operand with a non-empty
pool is a pool index — in range it pushes the pool entry, out of range it
is `InvalidOperand`; an Integer operand with an empty pool pushes the
literal integer; any non-Integer operand pushes the literal value. -/
theorem c4_push_semantics :
    (∀ (stack : OperandStack) (constants : List Value),
      InstructionDispatcher.executePushWithConstants ⟨.push, none⟩ stack constants =
        .error .insufficientOperands) ∧
    (∀ (i : Int) (stack : OperandStack) (constants : List Value),
      constants ≠ [] →
      (i64ToUsize i < constants.length →
        InstructionDispatcher.executePushWithConstants ⟨.push, some (.integer i)⟩
            stack constants =
          .ok (stack.push (constants.getD (i64ToUsize i) .null))) ∧
      (i64ToUsize i ≥ constants.length →
        ∃ msg,
          InstructionDispatcher.executePushWithConstants ⟨.push, some (.integer i)⟩
              stack constants = .error (.invalidOperand msg))) ∧
    (∀ (i : Int) (stack : OperandStack),
      InstructionDispatcher.executePushWithConstants ⟨.push, some (.integer i)⟩
          stack [] = .ok (stack.push (.integer i))) ∧
    (∀ (v : Value) (stack : OperandStack) (constants : List Value),
      v.isInteger = false →
      InstructionDispatcher.executePushWithConstants ⟨.push, some v⟩ stack constants =
        .ok (stack.push v)) := by
  refine ⟨fun stack constants => rfl, ?_, fun i stack => rfl, ?_⟩
  · intro i stack constants hne
    have hemp : constants.isEmpty = false := by
      cases constants with
      | nil => exact absurd rfl hne
      | cons c cs => rfl
    constructor
    · intro hlt
      simp only [InstructionDispatcher.executePushWithConstants, hemp,
        Bool.false_eq_true, if_false, if_neg (Nat.not_le.mpr hlt)]
    · intro hge
      exact ⟨_, by
        simp only [InstructionDispatcher.executePushWithConstants, hemp,
          Bool.false_eq_true, if_false, if_pos hge]
        rfl⟩
  · intro v stack constants hv
    cases v <;> first | rfl | simp [Value.isInteger] at hv

/-- C4 witness: on the pool `[Integer 42]`, `Push 0` pushes the pool
entry and `Push 5` is rejected as out of range. -/
theorem c4_witness :
    InstructionDispatcher.executePushWithConstants ⟨.push, some (.integer 0)⟩
        OperandStack.new [Value.integer 42] =
      .ok (OperandStack.new.push
        (([Value.integer 42] : List Value).getD (i64ToUsize 0) .null)) ∧
    (∃ msg,
      InstructionDispatcher.executePushWithConstants ⟨.push, some (.integer 5)⟩
          OperandStack.new [Value.integer 42] = .error (.invalidOperand msg)) :=
  ⟨(c4_push_semantics.2.1 0 OperandStack.new [Value.integer 42]
      (List.cons_ne_nil _ _)).1 (by decide),
   (c4_push_semantics.2.1 5 OperandStack.new [Value.integer 42]
      (List.cons_ne_nil _ _)).2 (by decide)⟩

/-- C5: `Div` on two numeric operands fails with `DivisionByZero` exactly
when the divisor is zero (a Float `0.0` divisor included — the zero test
happens before any quotient is formed, so no infinity is produced);
`Mod` on two Integers fails with `DivisionByZero` exactly when the
divisor is zero, and fails with a `TypeError` whenever either operand is
not an Integer. -/
theorem c5_div_mod_zero :
    (∀ (a b : Value) (rest : List Value) (ms : Option Nat),
      a.isNumeric = true → b.isNumeric = true →
      (InstructionDispatcher.executeDiv { values := b :: a :: rest, maxSize := ms } =
          .error .divisionByZero ↔ b.divisorIsZero = true)) ∧
    (∀ (m n : Int) (rest : List Value) (ms : Option Nat),
      InstructionDispatcher.executeMod
          { values := .integer n :: .integer m :: rest, maxSize := ms } =
        .error .divisionByZero ↔ n = 0) ∧
    (∀ (a b : Value) (rest : List Value) (ms : Option Nat),
      (a.isInteger && b.isInteger) = false →
      InstructionDispatcher.executeMod { values := b :: a :: rest, maxSize := ms } =
        .error (.typeError "Modulo only supported for integers")) := by
  refine ⟨?_, ?_, ?_⟩
  · intro a b rest ms ha hb
    obtain ⟨m, rfl⟩ | ⟨f, rfl⟩ := (isNumeric_iff a).mp ha <;>
      obtain ⟨n, rfl⟩ | ⟨g, rfl⟩ := (isNumeric_iff b).mp hb
    · have h : InstructionDispatcher.executeDiv
          { values := Value.integer n :: Value.integer m :: rest, maxSize := ms } =
          if n = 0 then .error .divisionByZero
          else .ok { values := Value.integer (Int.tdiv m n) :: rest, maxSize := ms } := rfl
      rw [h]
      by_cases h0 : n = 0 <;> simp [h0, Value.divisorIsZero]
    · have h : InstructionDispatcher.executeDiv
          { values := Value.float g :: Value.integer m :: rest, maxSize := ms } =
          if FloatVal.feq g FloatVal.zero = true then .error .divisionByZero
          else .ok { values := Value.float (FloatVal.fdiv (intToFloat m) g) :: rest,
                     maxSize := ms } := rfl
      rw [h]
      by_cases h0 : FloatVal.feq g FloatVal.zero = true <;>
        simp [h0, Value.divisorIsZero]
    · have h : InstructionDispatcher.executeDiv
          { values := Value.integer n :: Value.float f :: rest, maxSize := ms } =
          if n = 0 then .error .divisionByZero
          else .ok { values := Value.float (FloatVal.fdiv f (intToFloat n)) :: rest,
                     maxSize := ms } := rfl
      rw [h]
      by_cases h0 : n = 0 <;> simp [h0, Value.divisorIsZero]
    · have h : InstructionDispatcher.executeDiv
          { values := Value.float g :: Value.float f :: rest, maxSize := ms } =
          if FloatVal.feq g FloatVal.zero = true then .error .divisionByZero
          else .ok { values := Value.float (FloatVal.fdiv f g) :: rest,
                     maxSize := ms } := rfl
      rw [h]
      by_cases h0 : FloatVal.feq g FloatVal.zero = true <;>
        simp [h0, Value.divisorIsZero]
  · intro m n rest ms
    have h : InstructionDispatcher.executeMod
        { values := Value.integer n :: Value.integer m :: rest, maxSize := ms } =
        if n = 0 then .error .divisionByZero
        else .ok { values := Value.integer (Int.tmod m n) :: rest, maxSize := ms } := rfl
    rw [h]
    by_cases h0 : n = 0 <;> simp [h0]
  · intro a b rest ms hab
    cases a <;> cases b <;> first
      | rfl
      | simp [Value.isInteger] at hab

/-- C5 witness: `Div` on `Integer 7 / Integer 0` is `DivisionByZero`,
and `Mod` on a Float operand is the integer-only `TypeError`. -/
theorem c5_witness :
    (InstructionDispatcher.executeDiv
        { values := [Value.integer 0, Value.integer 7], maxSize := none } =
        .error .divisionByZero ↔ (Value.integer 0).divisorIsZero = true) ∧
    InstructionDispatcher.executeMod
        { values := [Value.integer 2, Value.float (.finite 1)], maxSize := none } =
      .error (.typeError "Modulo only supported for integers") :=
  ⟨c5_div_mod_zero.1 (Value.integer 7) (Value.integer 0) [] none rfl rfl,
   c5_div_mod_zero.2.2 (Value.float (.finite 1)) (Value.integer 2) [] none rfl⟩

/-- C6: each arithmetic opcode (`Add`, `Sub`, `Mul`, `Div`) dispatched by
`execute_with_constants` on two numeric operands (with a non-zero divisor
for `Div`) pushes a numeric result obeying the widening rule:
Integer/Integer yields an Integer, and if either operand is a Float the
result is a Float. -/
theorem c6_arith_widening :
    ∀ (op : Opcode), (op = .add ∨ op = .sub ∨ op = .mul ∨ op = .div) →
    ∀ (d : InstructionDispatcher) (oper : Option Value) (a b : Value)
      (rest : List Value) (ms : Option Nat) (cs : CallStack)
      (constants : List Value) (heap : Heap),
      a.isNumeric = true → b.isNumeric = true →
      (op = .div → b.divisorIsZero = false) →
      ∃ r : Value,
        InstructionDispatcher.executeWithConstants d ⟨op, oper⟩
            { values := b :: a :: rest, maxSize := ms } cs constants heap =
          .ok ({ d with instructionCount := d.instructionCount + 1 },
               { values := r :: rest, maxSize := ms }, cs, heap) ∧
        r.isNumeric = true ∧
        (if a.isFloat || b.isFloat then r.isFloat else r.isInteger) = true := by
  intro op hop d oper a b rest ms cs constants heap ha hb hdiv
  obtain ⟨m, rfl⟩ | ⟨f, rfl⟩ := (isNumeric_iff a).mp ha <;>
    obtain ⟨n, rfl⟩ | ⟨g, rfl⟩ := (isNumeric_iff b).mp hb <;>
    rcases hop with rfl | rfl | rfl | rfl
  case' inl.intro.inl.intro.inr.inr.inr =>
    have hn : ¬ n = 0 := by
      have h0 := hdiv rfl
      simpa [Value.divisorIsZero] using h0
  case' inl.intro.inr.intro.inr.inr.inr =>
    have hg : ¬ FloatVal.feq g FloatVal.zero = true := by
      have h0 := hdiv rfl
      simp [Value.divisorIsZero] at h0
      simp [h0]
  case' inr.intro.inl.intro.inr.inr.inr =>
    have hn : ¬ n = 0 := by
      have h0 := hdiv rfl
      simpa [Value.divisorIsZero] using h0
  case' inr.intro.inr.intro.inr.inr.inr =>
    have hg : ¬ FloatVal.feq g FloatVal.zero = true := by
      have h0 := hdiv rfl
      simp [Value.divisorIsZero] at h0
      simp [h0]
  all_goals try exact ⟨_, rfl, rfl, rfl⟩
  case inl.intro.inl.intro.inr.inr.inr =>
    refine ⟨Value.integer (Int.tdiv m n), ?_, rfl, rfl⟩
    have hw : InstructionDispatcher.executeWithConstants d ⟨.div, oper⟩
        { values := Value.integer n :: Value.integer m :: rest, maxSize := ms }
        cs constants heap =
        (match InstructionDispatcher.executeDiv
            { values := Value.integer n :: Value.integer m :: rest, maxSize := ms } with
         | .error e => .error e
         | .ok stack =>
             .ok ({ d with instructionCount := d.instructionCount + 1 },
                  stack, cs, heap)) := rfl
    have hd : InstructionDispatcher.executeDiv
        { values := Value.integer n :: Value.integer m :: rest, maxSize := ms } =
        .ok { values := Value.integer (Int.tdiv m n) :: rest, maxSize := ms } := by
      rw [show InstructionDispatcher.executeDiv
          { values := Value.integer n :: Value.integer m :: rest, maxSize := ms } =
          if n = 0 then .error .divisionByZero
          else .ok { values := Value.integer (Int.tdiv m n) :: rest, maxSize := ms }
          from rfl, if_neg hn]
    rw [hw, hd]
  case inl.intro.inr.intro.inr.inr.inr =>
    refine ⟨Value.float (FloatVal.fdiv (intToFloat m) g), ?_, rfl, rfl⟩
    have hw : InstructionDispatcher.executeWithConstants d ⟨.div, oper⟩
        { values := Value.float g :: Value.integer m :: rest, maxSize := ms }
        cs constants heap =
        (match InstructionDispatcher.executeDiv
            { values := Value.float g :: Value.integer m :: rest, maxSize := ms } with
         | .error e => .error e
         | .ok stack =>
             .ok ({ d with instructionCount := d.instructionCount + 1 },
                  stack, cs, heap)) := rfl
    have hd : InstructionDispatcher.executeDiv
        { values := Value.float g :: Value.integer m :: rest, maxSize := ms } =
        .ok { values := Value.float (FloatVal.fdiv (intToFloat m) g) :: rest,
              maxSize := ms } := by
      rw [show InstructionDispatcher.executeDiv
          { values := Value.float g :: Value.integer m :: rest, maxSize := ms } =
          if FloatVal.feq g FloatVal.zero = true then .error .divisionByZero
          else .ok { values := Value.float (FloatVal.fdiv (intToFloat m) g) :: rest,
                     maxSize := ms }
          from rfl, if_neg hg]
    rw [hw, hd]
  case inr.intro.inl.intro.inr.inr.inr =>
    refine ⟨Value.float (FloatVal.fdiv f (intToFloat n)), ?_, rfl, rfl⟩
    have hw : InstructionDispatcher.executeWithConstants d ⟨.div, oper⟩
        { values := Value.integer n :: Value.float f :: rest, maxSize := ms }
        cs constants heap =
        (match InstructionDispatcher.executeDiv
            { values := Value.integer n :: Value.float f :: rest, maxSize := ms } with
         | .error e => .error e
         | .ok stack =>
             .ok ({ d with instructionCount := d.instructionCount + 1 },
                  stack, cs, heap)) := rfl
    have hd : InstructionDispatcher.executeDiv
        { values := Value.integer n :: Value.float f :: rest, maxSize := ms } =
        .ok { values := Value.float (FloatVal.fdiv f (intToFloat n)) :: rest,
              maxSize := ms } := by
      rw [show InstructionDispatcher.executeDiv
          { values := Value.integer n :: Value.float f :: rest, maxSize := ms } =
          if n = 0 then .error .divisionByZero
          else .ok { values := Value.float (FloatVal.fdiv f (intToFloat n)) :: rest,
                     maxSize := ms }
          from rfl, if_neg hn]
    rw [hw, hd]
  case inr.intro.inr.intro.inr.inr.inr =>
    refine ⟨Value.float (FloatVal.fdiv f g), ?_, rfl, rfl⟩
    have hw : InstructionDispatcher.executeWithConstants d ⟨.div, oper⟩
        { values := Value.float g :: Value.float f :: rest, maxSize := ms }
        cs constants heap =
        (match InstructionDispatcher.executeDiv
            { values := Value.float g :: Value.float f :: rest, maxSize := ms } with
         | .error e => .error e
         | .ok stack =>
             .ok ({ d with instructionCount := d.instructionCount + 1 },
                  stack, cs, heap)) := rfl
    have hd : InstructionDispatcher.executeDiv
        { values := Value.float g :: Value.float f :: rest, maxSize := ms } =
        .ok { values := Value.float (FloatVal.fdiv f g) :: rest, maxSize := ms } := by
      rw [show InstructionDispatcher.executeDiv
          { values := Value.float g :: Value.float f :: rest, maxSize := ms } =
          if FloatVal.feq g FloatVal.zero = true then .error .divisionByZero
          else .ok { values := Value.float (FloatVal.fdiv f g) :: rest, maxSize := ms }
          from rfl, if_neg hg]
    rw [hw, hd]

/-- C6 witness: `Add` on `Integer 2` and `Integer 3` pushes an Integer,
at the concrete VM state pieces. -/
theorem c6_witness :
    ∃ r : Value,
      InstructionDispatcher.executeWithConstants InstructionDispatcher.new
          ⟨.add, none⟩
          { values := [Value.integer 3, Value.integer 2], maxSize := none }
          CallStack.new [] Heap.new =
        .ok ({ InstructionDispatcher.new with
                instructionCount := InstructionDispatcher.new.instructionCount + 1 },
             { values := [r], maxSize := none }, CallStack.new, Heap.new) ∧
      r.isNumeric = true ∧
      (if (Value.integer 2).isFloat || (Value.integer 3).isFloat then r.isFloat
       else r.isInteger) = true :=
  c6_arith_widening .add (Or.inl rfl) InstructionDispatcher.new none
    (Value.integer 2) (Value.integer 3) [] none CallStack.new [] Heap.new
    rfl rfl (fun h => Opcode.noConfusion h)

/-- The accounted size of a string allocation is positive (payload bytes
plus a fixed positive header). -/
theorem stringAllocSize_pos (s : String) : 0 < Heap.stringAllocSize s := by
  unfold Heap.stringAllocSize sizeOfStringStruct
  omega

/-- The accounted size of an object allocation is positive (fixed
positive base plus the capacity-proportional part). -/
theorem objectAllocSize_pos (obj : HeapObject) : 0 < Heap.objectAllocSize obj := by
  unfold Heap.objectAllocSize sizeOfObjectStruct
  omega

/-- C7: a successful `allocate_string`/`allocate_object` strictly
increases the live-object count (by one) and the current heap size (by
the accounted size, which is positive); an allocation fails exactly when
a max limit is set and the current size plus the request would exceed
it, the failure is `OutOfMemory`, and it leaves every heap counter
unchanged. -/
theorem c7_heap_allocation :
    ∀ (h : Heap),
      (∀ s : String,
        (∀ id, (h.allocate_string s).1 = .ok id →
          (h.allocate_string s).2.allocatedObjects = h.allocatedObjects + 1 ∧
          (h.allocate_string s).2.currentHeapSize =
            h.currentHeapSize + Heap.stringAllocSize s ∧
          h.allocatedObjects < (h.allocate_string s).2.allocatedObjects ∧
          h.currentHeapSize < (h.allocate_string s).2.currentHeapSize) ∧
        (∀ e, (h.allocate_string s).1 = .error e →
          e = .outOfMemory ∧ (h.allocate_string s).2 = h) ∧
        ((∃ e, (h.allocate_string s).1 = .error e) ↔
          ∃ maxSize, h.maxHeapSize = some maxSize ∧
            h.currentHeapSize + Heap.stringAllocSize s > maxSize)) ∧
      (∀ obj : HeapObject,
        (∀ id, (h.allocate_object obj).1 = .ok id →
          (h.allocate_object obj).2.allocatedObjects = h.allocatedObjects + 1 ∧
          (h.allocate_object obj).2.currentHeapSize =
            h.currentHeapSize + Heap.objectAllocSize obj ∧
          h.allocatedObjects < (h.allocate_object obj).2.allocatedObjects ∧
          h.currentHeapSize < (h.allocate_object obj).2.currentHeapSize) ∧
        (∀ e, (h.allocate_object obj).1 = .error e →
          e = .outOfMemory ∧ (h.allocate_object obj).2 = h) ∧
        ((∃ e, (h.allocate_object obj).1 = .error e) ↔
          ∃ maxSize, h.maxHeapSize = some maxSize ∧
            h.currentHeapSize + Heap.objectAllocSize obj > maxSize)) := by
  intro h
  constructor
  · intro s
    cases hm : h.maxHeapSize with
    | none =>
      refine ⟨fun id _ => ?_, fun e he => ?_, ?_⟩
      · simp only [Heap.allocate_string, Heap.recordAllocation, hm]
        refine ⟨trivial, trivial, Nat.lt_succ_self _, ?_⟩
        have := stringAllocSize_pos s
        omega
      · simp only [Heap.allocate_string, Heap.recordAllocation, hm] at he
        exact absurd he (by simp)
      · constructor
        · rintro ⟨e, he⟩
          simp only [Heap.allocate_string, Heap.recordAllocation, hm] at he
          exact absurd he (by simp)
        · rintro ⟨maxSize, hmax, -⟩
          exact absurd hmax (by simp)
    | some maxSize =>
      by_cases hover : h.currentHeapSize + Heap.stringAllocSize s > maxSize
      · refine ⟨fun id hid => ?_, fun e he => ?_, ?_⟩
        · simp only [Heap.allocate_string, hm, if_pos hover] at hid
          exact absurd hid (by simp)
        · simp only [Heap.allocate_string, hm, if_pos hover] at he
          exact ⟨(Except.error.inj he).symm, by
            simp only [Heap.allocate_string, hm, if_pos hover]⟩
        · exact ⟨fun _ => ⟨maxSize, rfl, hover⟩,
            fun _ => ⟨.outOfMemory, by
              simp only [Heap.allocate_string, hm, if_pos hover]⟩⟩
      · refine ⟨fun id _ => ?_, fun e he => ?_, ?_⟩
        · simp only [Heap.allocate_string, Heap.recordAllocation, hm, if_neg hover]
          refine ⟨trivial, trivial, Nat.lt_succ_self _, ?_⟩
          have := stringAllocSize_pos s
          omega
        · simp only [Heap.allocate_string, Heap.recordAllocation, hm, if_neg hover] at he
          exact absurd he (by simp)
        · constructor
          · rintro ⟨e, he⟩
            simp only [Heap.allocate_string, Heap.recordAllocation, hm, if_neg hover] at he
            exact absurd he (by simp)
          · rintro ⟨maxSize2, hmax, hover2⟩
            cases Option.some.inj hmax
            exact absurd hover2 hover

  · intro obj
    cases hm : h.maxHeapSize with
    | none =>
      refine ⟨fun id _ => ?_, fun e he => ?_, ?_⟩
      · simp only [Heap.allocate_object, Heap.recordAllocation, hm]
        refine ⟨trivial, trivial, Nat.lt_succ_self _, ?_⟩
        have := objectAllocSize_pos obj
        omega
      · simp only [Heap.allocate_object, Heap.recordAllocation, hm] at he
        exact absurd he (by simp)
      · constructor
        · rintro ⟨e, he⟩
          simp only [Heap.allocate_object, Heap.recordAllocation, hm] at he
          exact absurd he (by simp)
        · rintro ⟨maxSize, hmax, -⟩
          exact absurd hmax (by simp)
    | some maxSize =>
      by_cases hover : h.currentHeapSize + Heap.objectAllocSize obj > maxSize
      · refine ⟨fun id hid => ?_, fun e he => ?_, ?_⟩
        · simp only [Heap.allocate_object, hm, if_pos hover] at hid
          exact absurd hid (by simp)
        · simp only [Heap.allocate_object, hm, if_pos hover] at he
          exact ⟨(Except.error.inj he).symm, by
            simp only [Heap.allocate_object, hm, if_pos hover]⟩
        · exact ⟨fun _ => ⟨maxSize, rfl, hover⟩,
            fun _ => ⟨.outOfMemory, by
              simp only [Heap.allocate_object, hm, if_pos hover]⟩⟩
      · refine ⟨fun id _ => ?_, fun e he => ?_, ?_⟩
        · simp only [Heap.allocate_object, Heap.recordAllocation, hm, if_neg hover]
          refine ⟨trivial, trivial, Nat.lt_succ_self _, ?_⟩
          have := objectAllocSize_pos obj
          omega
        · simp only [Heap.allocate_object, Heap.recordAllocation, hm, if_neg hover] at he
          exact absurd he (by simp)
        · constructor
          · rintro ⟨e, he⟩
            simp only [Heap.allocate_object, Heap.recordAllocation, hm, if_neg hover] at he
            exact absurd he (by simp)
          · rintro ⟨maxSize2, hmax, hover2⟩
            cases Option.some.inj hmax
            exact absurd hover2 hover

/-- C7 witness: on a fresh unbounded heap a string allocation bumps the
counters, and on a zero-limit heap it fails leaving the heap unchanged. -/
theorem c7_witness :
    ((Heap.new.allocate_string "ab").2.allocatedObjects =
        Heap.new.allocatedObjects + 1 ∧
      (Heap.new.allocate_string "ab").2.currentHeapSize =
        Heap.new.currentHeapSize + Heap.stringAllocSize "ab" ∧
      Heap.new.allocatedObjects < (Heap.new.allocate_string "ab").2.allocatedObjects ∧
      Heap.new.currentHeapSize < (Heap.new.allocate_string "ab").2.currentHeapSize) ∧
    (HeapError.outOfMemory = .outOfMemory ∧
      ((Heap.with_initial_size 0).allocate_string "ab").2 = Heap.with_initial_size 0) :=
  ⟨((c7_heap_allocation Heap.new).1 "ab").1 Heap.new.nextObjectId rfl,
   ((c7_heap_allocation (Heap.with_initial_size 0)).1 "ab").2.1 .outOfMemory rfl⟩

/-- C8: `SetField` with a valid (String or Integer) operand and a
`GcObject` beneath the top always returns the documented-limitation
error, and on that error path the operand stack is restored to its
pre-instruction contents: value and object are popped and re-pushed in
the opposite order. -/
theorem c8_set_field_restores :
    ∀ (oper : Value), validFieldOperand oper = true →
    ∀ (value : Value) (objectId : Nat) (fields : List (String × Value))
      (rest : List Value) (ms : Option Nat),
      InstructionDispatcher.executeSetField ⟨.setField, some oper⟩
          { values := value :: .gcObject objectId fields :: rest, maxSize := ms } =
        (.error (.invalidOperand
           "SetField not yet implemented - requires interior mutability in GcPtr"),
         { values := value :: .gcObject objectId fields :: rest, maxSize := ms }) := by
  intro oper hv value objectId fields rest ms
  cases oper <;> first | rfl | simp [validFieldOperand] at hv

/-- C8 witness: the restored-stack error at a concrete stack with
operand `"x"`, value `Integer 1` and an empty object beneath. -/
theorem c8_witness :
    InstructionDispatcher.executeSetField ⟨.setField, some (.string "x")⟩
        { values := [Value.integer 1, Value.gcObject 1 []], maxSize := none } =
      (.error (.invalidOperand
         "SetField not yet implemented - requires interior mutability in GcPtr"),
       { values := [Value.integer 1, Value.gcObject 1 []], maxSize := none }) :=
  c8_set_field_restores (.string "x") rfl (Value.integer 1) 1 [] [] none

/-- C10 counterexample: with the innermost frame pushed by `Call`, a
`Store` executed on an empty operand stack fails with an operand-stack
underflow (`execute_store` pops the value before touching the frame),
not with the claimed local-index-out-of-bounds call-frame error. -/
theorem c10_counterexample :
    InstructionDispatcher.executeCall InstructionDispatcher.new
        ⟨.call, some (.integer 2)⟩ CallStack.new =
      .ok ({ InstructionDispatcher.new with programCounter := i64ToUsize 2 },
           CallStack.new.push_unchecked (CallFrame.new (i64ToUsize 2) 1 0)) ∧
    InstructionDispatcher.executeStore ⟨.store, some (.integer 0)⟩
        OperandStack.new
        (CallStack.new.push_unchecked (CallFrame.new (i64ToUsize 2) 1 0)) =
      .error (.stackError .underflow) := by
  exact ⟨rfl, rfl⟩

/-- C10 (amended): every call frame created by the `Call` opcode has
zero local slots, so while such a frame is innermost every `Load` fails
with a local-index-out-of-bounds call-frame error for every index, and
so does every `Store` provided the operand stack is non-empty (on an
empty operand stack `Store` fails earlier, with a stack underflow). -/
theorem c10_call_frame_no_locals :
    ∀ (d d' : InstructionDispatcher) (cs cs' : CallStack) (addr i : Int)
      (v : Value) (rest : List Value) (ms : Option Nat),
      InstructionDispatcher.executeCall d ⟨.call, some (.integer addr)⟩ cs =
        .ok (d', cs') →
      (∃ frame, cs'.current = .ok frame ∧ frame.local_count = 0) ∧
      InstructionDispatcher.executeLoad ⟨.load, some (.integer i)⟩
          { values := rest, maxSize := ms } cs' =
        .error (.callFrameError (.localIndexOutOfBounds (i64ToUsize i) 0)) ∧
      InstructionDispatcher.executeStore ⟨.store, some (.integer i)⟩
          { values := v :: rest, maxSize := ms } cs' =
        .error (.callFrameError (.localIndexOutOfBounds (i64ToUsize i) 0)) := by
  intro d d' cs cs' addr i v rest ms h
  rw [show InstructionDispatcher.executeCall d ⟨.call, some (.integer addr)⟩ cs =
      (if addr < 0 then .error (.invalidJumpAddress addr)
       else .ok ({ d with programCounter := i64ToUsize addr },
                 cs.push_unchecked
                   (CallFrame.new (i64ToUsize addr) (d.programCounter + 1) 0)))
    from rfl] at h
  by_cases ha : addr < 0
  · rw [if_pos ha] at h
    exact absurd h (by simp)
  · rw [if_neg ha, Except.ok.injEq, Prod.mk.injEq] at h
    obtain ⟨-, rfl⟩ := h
    have hframe : (cs.push_unchecked
        (CallFrame.new (i64ToUsize addr) (d.programCounter + 1) 0)).current =
        .ok (CallFrame.new (i64ToUsize addr) (d.programCounter + 1) 0) := rfl
    have hlocal : (CallFrame.new (i64ToUsize addr) (d.programCounter + 1) 0).get_local
        (i64ToUsize i) =
        .error (.localIndexOutOfBounds (i64ToUsize i) 0) := by
      rw [show (CallFrame.new (i64ToUsize addr) (d.programCounter + 1) 0).get_local
          (i64ToUsize i) =
          if i64ToUsize i ≥ 0 then
            .error (.localIndexOutOfBounds (i64ToUsize i) 0)
          else .ok (List.getD [] (i64ToUsize i) .null) from rfl,
        if_pos (Nat.zero_le _)]
    refine ⟨⟨_, hframe, rfl⟩, ?_, ?_⟩
    · rw [show InstructionDispatcher.executeLoad ⟨.load, some (.integer i)⟩
          { values := rest, maxSize := ms }
          (cs.push_unchecked
            (CallFrame.new (i64ToUsize addr) (d.programCounter + 1) 0)) =
          (match (CallFrame.new (i64ToUsize addr) (d.programCounter + 1) 0).get_local
              (i64ToUsize i) with
           | .error e => .error (.callFrameError e)
           | .ok value =>
               .ok (OperandStack.push { values := rest, maxSize := ms } value))
        from rfl, hlocal]
    · have hset : (CallFrame.new (i64ToUsize addr) (d.programCounter + 1) 0).set_local
          (i64ToUsize i) v =
          .error (.localIndexOutOfBounds (i64ToUsize i) 0) := by
        rw [show (CallFrame.new (i64ToUsize addr) (d.programCounter + 1) 0).set_local
            (i64ToUsize i) v =
            if i64ToUsize i ≥ 0 then
              .error (.localIndexOutOfBounds (i64ToUsize i) 0)
            else .ok { CallFrame.new (i64ToUsize addr) (d.programCounter + 1) 0 with
                       locals := List.set [] (i64ToUsize i) v } from rfl,
          if_pos (Nat.zero_le _)]
      rw [show InstructionDispatcher.executeStore ⟨.store, some (.integer i)⟩
          { values := v :: rest, maxSize := ms }
          (cs.push_unchecked
            (CallFrame.new (i64ToUsize addr) (d.programCounter + 1) 0)) =
          (match (CallFrame.new (i64ToUsize addr) (d.programCounter + 1) 0).set_local
              (i64ToUsize i) v with
           | .error e => .error (.callFrameError e)
           | .ok frame =>
               .ok ({ values := rest, maxSize := ms },
                    CallStack.set_current
                      (cs.push_unchecked
                        (CallFrame.new (i64ToUsize addr) (d.programCounter + 1) 0))
                      frame))
        from rfl, hset]

/-- C10 witness: the amended conclusion at a concrete `Call 2`-created
frame, index 3 and a singleton operand stack. -/
theorem c10_witness :
    (∃ frame,
      (CallStack.new.push_unchecked (CallFrame.new (i64ToUsize 2) 1 0)).current =
        .ok frame ∧ frame.local_count = 0) ∧
    InstructionDispatcher.executeLoad ⟨.load, some (.integer 3)⟩
        { values := [], maxSize := none }
        (CallStack.new.push_unchecked (CallFrame.new (i64ToUsize 2) 1 0)) =
      .error (.callFrameError (.localIndexOutOfBounds (i64ToUsize 3) 0)) ∧
    InstructionDispatcher.executeStore ⟨.store, some (.integer 3)⟩
        { values := [Value.null], maxSize := none }
        (CallStack.new.push_unchecked (CallFrame.new (i64ToUsize 2) 1 0)) =
      .error (.callFrameError (.localIndexOutOfBounds (i64ToUsize 3) 0)) :=
  c10_call_frame_no_locals InstructionDispatcher.new
    { InstructionDispatcher.new with programCounter := i64ToUsize 2 }
    CallStack.new
    (CallStack.new.push_unchecked (CallFrame.new (i64ToUsize 2) 1 0))
    2 3 Value.null [] none rfl

/-- Printing a `usize` key and parsing it back is the identity:
the decimal digits of `pc` are all below 10, and `Nat.ofDigits`
reassembles them. -/
theorem parseKey_natKey (pc : Nat) : parseKey (natKey pc) = some pc := by
  unfold parseKey natKey
  rw [if_pos, Nat.ofDigits_digits]
  exact List.all_eq_true.mpr fun d hd =>
    decide_eq_true (Nat.digits_lt_base (by norm_num) (by simpa using hd))

/-- Deserializing the serialized type profiles rebuilds the association
list with the same keys and counts, the totals recomputed as sums. -/
theorem deser_ser_type (l : List (Nat × TypeProfile)) :
    HotSpotProfiler.deserialize_type_profiles
      (l.map fun e => (natKey e.1, e.2.typeCounts)) =
    l.map fun e =>
      ((e.1 : Nat), ({ typeCounts := e.2.typeCounts
                       totalObservations := (e.2.typeCounts.map Prod.snd).sum } :
                     TypeProfile)) := by
  induction l with
  | nil => rfl
  | cons e rest ih =>
      simp only [List.map_cons, HotSpotProfiler.deserialize_type_profiles,
        List.filterMap_cons, parseKey_natKey, Option.map_some'] at ih ⊢
      rw [← ih]

/-- Deserializing the serialized branch profiles is the identity. -/
theorem deser_ser_branch (l : List (Nat × BranchProfile)) :
    HotSpotProfiler.deserialize_branch_profiles
      (l.map fun e => (natKey e.1, (e.2.takenCount, e.2.notTakenCount))) = l := by
  induction l with
  | nil => rfl
  | cons e rest ih =>
      simp only [List.map_cons, HotSpotProfiler.deserialize_branch_profiles,
        List.filterMap_cons, parseKey_natKey, Option.map_some'] at ih ⊢
      rw [ih]

/-- Re-serializing the deserialized type profiles gives back the original
document: the recomputed totals are not part of the document. -/
theorem ser_deser_ser_type (l : List (Nat × TypeProfile)) :
    ((l.map fun e =>
        ((e.1 : Nat), ({ typeCounts := e.2.typeCounts
                         totalObservations := (e.2.typeCounts.map Prod.snd).sum } :
                       TypeProfile))).map
      fun e => (natKey e.1, e.2.typeCounts)) =
    l.map fun e => (natKey e.1, e.2.typeCounts) := by
  induction l with
  | nil => rfl
  | cons e rest ih => simp only [List.map_cons, ih]

/-- Looking a key up in the value-mapped type-profile list is the mapped
lookup. -/
theorem lookup_deser_type (k : Nat) (l : List (Nat × TypeProfile)) :
    List.lookup k (l.map fun e =>
      ((e.1 : Nat), ({ typeCounts := e.2.typeCounts
                       totalObservations := (e.2.typeCounts.map Prod.snd).sum } :
                     TypeProfile))) =
    (List.lookup k l).map fun tp =>
      ({ typeCounts := tp.typeCounts
         totalObservations := (tp.typeCounts.map Prod.snd).sum } : TypeProfile) := by
  induction l with
  | nil => rfl
  | cons e rest ih =>
      obtain ⟨ek, ev⟩ := e
      by_cases hk : (k == ek) = true
      · simp [List.lookup, hk]
      · simp [List.lookup, hk, ih]

/-- A key found by lookup in an association list satisfies any property
that `List.all` certifies for every stored value. -/
theorem lookup_all {β : Type} {P : β → Bool} {l : List (Nat × β)}
    (hall : (l.all fun e => P e.2) = true) (k : Nat) (v : β)
    (h : List.lookup k l = some v) : P v = true := by
  induction l with
  | nil => simp [List.lookup] at h
  | cons e rest ih =>
      obtain ⟨ek, ev⟩ := e
      simp only [List.all_cons, Bool.and_eq_true] at hall
      by_cases hk : (k == ek) = true
      · simp only [List.lookup, hk] at h
        cases h
        exact hall.1
      · simp only [List.lookup, hk] at h
        exact ih hall.2 h

/-- A fresh profiler satisfies the totals invariant. -/
theorem profiler_new_totalsOk : HotSpotProfiler.new.totalsOk = true := rfl

/-- Bumping one key of a count table raises its sum by exactly one. -/
theorem sum_alistUpdate_incr (k : String) (l : List (String × Nat)) :
    ((alistUpdate k (· + 1) 0 l).map Prod.snd).sum = (l.map Prod.snd).sum + 1 := by
  induction l with
  | nil => rfl
  | cons e rest ih =>
      obtain ⟨ek, ev⟩ := e
      by_cases hk : ek = k
      · simp [alistUpdate, hk]
        omega
      · simp [alistUpdate, hk, ih]
        omega

/-- `record_observation` preserves the totals invariant. -/
theorem record_observation_totalsOk (tp : TypeProfile) (t : String)
    (h : tp.totalsOk = true) : (tp.record_observation t).totalsOk = true := by
  unfold TypeProfile.totalsOk TypeProfile.record_observation at *
  simp only [beq_iff_eq] at h ⊢
  rw [sum_alistUpdate_incr]
  omega

/-- The profiler-level totals invariant survives recording a type
observation at any PC. -/
theorem all_alistUpdate_totalsOk (pc : Nat) (t : String)
    (l : List (Nat × TypeProfile))
    (h : (l.all fun e => e.2.totalsOk) = true) :
    ((alistUpdate pc (·.record_observation t) TypeProfile.new l).all
      fun e => e.2.totalsOk) = true := by
  induction l with
  | nil =>
      simp only [alistUpdate, List.all_cons, List.all_nil, Bool.and_true]
      exact record_observation_totalsOk TypeProfile.new t rfl
  | cons e rest ih =>
      obtain ⟨ek, ev⟩ := e
      simp only [List.all_cons, Bool.and_eq_true] at h
      by_cases hk : ek = pc
      · simp only [alistUpdate, if_pos hk, List.all_cons, Bool.and_eq_true]
        exact ⟨record_observation_totalsOk ev t h.1, h.2⟩
      · simp only [alistUpdate, if_neg hk, List.all_cons, Bool.and_eq_true]
        exact ⟨h.1, ih h.2⟩

/-- `record_type_observation` preserves the profiler totals invariant
(the other record operations do not touch the type profiles at all). -/
theorem record_type_observation_totalsOk (p : HotSpotProfiler) (pc : Nat)
    (v : Value) (h : p.totalsOk = true) :
    (p.record_type_observation pc v).totalsOk = true := by
  unfold HotSpotProfiler.totalsOk HotSpotProfiler.record_type_observation at *
  exact all_alistUpdate_totalsOk pc v.type_name p.typeProfiles h

/-- Two profiler states with the same four serialized pieces export the
same document. -/
theorem export_congr (q r : HotSpotProfiler)
    (h1 : q.functionCounts = r.functionCounts)
    (h2 : q.loopCounts = r.loopCounts)
    (h3 : q.serialize_type_profiles = r.serialize_type_profiles)
    (h4 : q.serialize_branch_profiles = r.serialize_branch_profiles) :
    q.export_profile_data = r.export_profile_data := by
  unfold HotSpotProfiler.export_profile_data
  rw [h1, h2, h3, h4]

/-- Importing an exported document and serializing the type profiles
again reproduces the serialized type profiles. -/
theorem ser_import_type (p : HotSpotProfiler) :
    (p.import_profile_data p.export_profile_data).serialize_type_profiles =
      p.serialize_type_profiles := by
  show (HotSpotProfiler.deserialize_type_profiles
      (p.typeProfiles.map fun e => (natKey e.1, e.2.typeCounts))).map
      (fun e => (natKey e.1, e.2.typeCounts)) =
    p.typeProfiles.map fun e => (natKey e.1, e.2.typeCounts)
  rw [deser_ser_type, ser_deser_ser_type]

/-- Importing an exported document and serializing the branch profiles
again reproduces the serialized branch profiles. -/
theorem ser_import_branch (p : HotSpotProfiler) :
    (p.import_profile_data p.export_profile_data).serialize_branch_profiles =
      p.serialize_branch_profiles := by
  show ((HotSpotProfiler.deserialize_branch_profiles
      (p.branchProfiles.map fun e =>
        (natKey e.1, (e.2.takenCount, e.2.notTakenCount)))).map
      fun e => (natKey e.1, (e.2.takenCount, e.2.notTakenCount))) =
    p.branchProfiles.map fun e => (natKey e.1, (e.2.takenCount, e.2.notTakenCount))
  rw [deser_ser_branch]

/-- C9: on any profiler state satisfying the representation invariant
that each stored type-profile total equals the sum of its counts (which
`record_observation` maintains), `export → import → export` reproduces
the exported profile document exactly, and the imported state answers
every profile query (function counts, loop counts, type frequencies and
totals, branch profiles) identically to the original. -/
theorem c9_profiler_roundtrip :
    ∀ p : HotSpotProfiler, p.totalsOk = true →
      (p.import_profile_data p.export_profile_data).export_profile_data =
        p.export_profile_data ∧
      profilerQueriesAgree (p.import_profile_data p.export_profile_data) p := by
  intro p hp
  have htypes : (p.import_profile_data p.export_profile_data).typeProfiles =
      p.typeProfiles.map fun e =>
        ((e.1 : Nat), ({ typeCounts := e.2.typeCounts
                         totalObservations := (e.2.typeCounts.map Prod.snd).sum } :
                       TypeProfile)) :=
    deser_ser_type p.typeProfiles
  have hbranch : (p.import_profile_data p.export_profile_data).branchProfiles =
      p.branchProfiles :=
    deser_ser_branch p.branchProfiles
  constructor
  · exact export_congr _ _ rfl rfl (ser_import_type p) (ser_import_branch p)
  · refine ⟨fun f => rfl, fun l => rfl, ?_, ?_, ?_⟩
    · intro pc t
      unfold HotSpotProfiler.get_type_profile
      rw [htypes, lookup_deser_type]
      cases List.lookup pc p.typeProfiles with
      | none => rfl
      | some tp => rfl
    · intro pc
      unfold HotSpotProfiler.get_type_profile
      rw [htypes, lookup_deser_type]
      cases hl : List.lookup pc p.typeProfiles with
      | none => rfl
      | some tp =>
          have htp : tp.totalsOk = true := lookup_all hp pc tp hl
          have htp2 : (tp.totalObservations ==
              (tp.typeCounts.map Prod.snd).sum) = true := htp
          simp only [Option.map_some']
          exact congrArg some (beq_iff_eq.mp htp2).symm
    · intro pc
      unfold HotSpotProfiler.get_branch_profile
      rw [hbranch]

/-- C9 witness: the round trip at a concrete profiler that has recorded
a function entry, a type observation and a branch outcome. -/
theorem c9_witness :
    ((((HotSpotProfiler.new.record_function_entry 1).record_type_observation 3
        (.integer 7)).record_branch_taken 2 true).import_profile_data
        (((HotSpotProfiler.new.record_function_entry 1).record_type_observation 3
        (.integer 7)).record_branch_taken 2 true).export_profile_data).export_profile_data =
      (((HotSpotProfiler.new.record_function_entry 1).record_type_observation 3
        (.integer 7)).record_branch_taken 2 true).export_profile_data ∧
    profilerQueriesAgree
      ((((HotSpotProfiler.new.record_function_entry 1).record_type_observation 3
        (.integer 7)).record_branch_taken 2 true).import_profile_data
        (((HotSpotProfiler.new.record_function_entry 1).record_type_observation 3
        (.integer 7)).record_branch_taken 2 true).export_profile_data)
      (((HotSpotProfiler.new.record_function_entry 1).record_type_observation 3
        (.integer 7)).record_branch_taken 2 true) :=
  c9_profiler_roundtrip
    (((HotSpotProfiler.new.record_function_entry 1).record_type_observation 3
        (.integer 7)).record_branch_taken 2 true) rfl
